import Mathlib

/-!
Verification of the booking/payment reconciliation core of the travel API.

The definitions below are a shallow embedding of the TypeScript route
handlers in `src/routes/payments.ts` (payments, refunds, webhook handlers),
`src/routes/bookings.ts` (booking creation/update/cancellation, booking
activities) and `src/routes/activities.ts` (catalog updates), over the
Drizzle schema in `src/db/schema.ts`.

Modelling conventions:
- decimal(10,2) money values are modelled as integers in a fixed minor
  unit (cents): the source converts the stored decimal strings with
  `Number(...)`, only adds, subtracts and compares them, and stores them
  back with `toFixed(2)`, so fixed-point integers capture the arithmetic
  exactly; the `* 100` / `/ 100` conversions at the Stripe boundary cancel
  out and every amount is kept in the same unit throughout;
- each database table is a list of records, `SELECT ... WHERE x LIMIT 1`
  is `List.find?`, `UPDATE ... WHERE x` maps the update over matching rows,
  and `INSERT` appends;
- the Stripe gateway is a parameter: an `Except String String` carrying
  either a failure or the created intent / refund identifier;
- timestamps (`createdAt` / `updatedAt`) and free-text fields that no
  handler branches on are not modelled;
- route handlers return their HTTP status code together with the new
  database state.
-/

namespace TravelApi

/-- Booking status enum (`bookingStatusEnum` in src/db/schema.ts). -/
inductive BookingStatus where
  | pending
  | confirmed
  | cancelled
  | completed
deriving DecidableEq, Repr

/-- Payment status enum (`paymentStatusEnum` in src/db/schema.ts). -/
inductive PaymentStatus where
  | pending
  | processing
  | completed
  | failed
  | refunded
  | partially_refunded
deriving DecidableEq, Repr

/-- Payment provider enum (`createPaymentSchema` in payments.validation.ts). -/
inductive PaymentProvider where
  | stripe
  | paypal
  | square
  | manual
deriving DecidableEq, Repr

/-- A row of the `booking` table. -/
structure Booking where
  id : Nat
  userId : Nat
  packageId : Option Nat
  status : BookingStatus
  totalPrice : ℤ
deriving DecidableEq, Repr

/-- A row of the `payment` table.  The `refunds` field models the
refund-history list kept inside the JSON `metadata` column (only the
refunded amounts are relevant to the handlers). -/
structure Payment where
  id : Nat
  bookingId : Nat
  amount : ℤ
  paymentStatus : PaymentStatus
  paymentProvider : PaymentProvider
  paymentIntentId : Option String
  transactionId : Option String
  refunds : List ℤ
deriving DecidableEq, Repr

/-- A row of the `booking_activity` table (a booking line item). -/
structure BookingActivity where
  id : Nat
  bookingId : Nat
  activityId : Nat
  priceAtBooking : ℤ
  scheduledAt : Option Nat
  guideId : Option Nat
deriving DecidableEq, Repr

/-- A row of the `activity` catalog table (fields the handlers branch on). -/
structure Activity where
  id : Nat
  name : String
  price : ℤ
deriving DecidableEq, Repr

/-- A row of the `package` table (fields the handlers branch on). -/
structure Package where
  id : Nat
  basePrice : Option ℤ
deriving DecidableEq, Repr

/-- A row of the `guide` table (fields the guide-assignment handler uses). -/
structure Guide where
  id : Nat
  isActive : Bool
deriving DecidableEq, Repr

/-- The database state touched by the reconciliation core. -/
structure DB where
  bookings : List Booking
  payments : List Payment
  bookingActivities : List BookingActivity
  activities : List Activity
  packages : List Package
  packagesToActivities : List (Nat × Nat)
  guides : List Guide
deriving DecidableEq, Repr

/-- `UPDATE t SET ... WHERE pred` over a table: apply `f` to matching rows. -/
def updateWhere (l : List α) (pred : α → Bool) (f : α → α) : List α :=
  l.map (fun x => if pred x then f x else x)

/-- Sum of the `amount` column over a list of payments. -/
def amountSum (ps : List Payment) : ℤ :=
  ps.foldl (fun acc p => acc + p.amount) 0

/-- The payments recorded against a booking. -/
def paymentsOf (db : DB) (bookingId : Nat) : List Payment :=
  db.payments.filter (fun p => decide (p.bookingId = bookingId))

/-- Sum of `amount` over a booking's payments whose status is `completed`
(the aggregate the webhook handler and the payment-summary endpoint
recompute from scratch). -/
def completedSum (db : DB) (bookingId : Nat) : ℤ :=
  amountSum ((paymentsOf db bookingId).filter
    (fun p => decide (p.paymentStatus = PaymentStatus.completed)))

/-- Status of the booking with the given id, if present. -/
def bookingStatusOf (db : DB) (bookingId : Nat) : Option BookingStatus :=
  (db.bookings.find? (fun b => decide (b.id = bookingId))).map Booking.status

/-- Total price of the booking with the given id, if present. -/
def totalPriceOf (db : DB) (bookingId : Nat) : Option ℤ :=
  (db.bookings.find? (fun b => decide (b.id = bookingId))).map Booking.totalPrice

/-- Status of the payment with the given id, if present. -/
def paymentStatusOf (db : DB) (paymentId : Nat) : Option PaymentStatus :=
  (db.payments.find? (fun p => decide (p.id = paymentId))).map Payment.paymentStatus

/-- The (id, priceAtBooking) view of all booking line items: the data the
price-snapshot invariant is about. -/
def priceSnapshots (db : DB) : List (Nat × ℤ) :=
  db.bookingActivities.map (fun ba => (ba.id, ba.priceAtBooking))

/-- The (id, totalPrice) view of all bookings. -/
def totalPrices (db : DB) : List (Nat × ℤ) :=
  db.bookings.map (fun b => (b.id, b.totalPrice))

/-- Result of a route handler: HTTP status code plus the new database
state. -/
structure HandlerResult where
  code : Nat
  db : DB
deriving DecidableEq, Repr

/-- POST /api/payments (payments.ts, `app.post("/")`).

`gateway` stands for `stripe.paymentIntents.create`: `.ok intentId` on
success, `.error msg` on a Stripe failure.  `paymentId` stands for the
`nanoid()` chosen for the new row.  The handler:
booking lookup (404) → ownership (403) → cancelled booking (400) →
amount defaulting to the booking total → amount ≤ 0 (400) →
amount > totalPrice (400) → Stripe intent creation for the stripe
provider (500 on failure, nothing persisted) → insert of a `pending`
payment row (201). -/
def createPayment (db : DB) (userId bookingId : Nat) (amount : Option ℤ)
    (provider : PaymentProvider) (gateway : Except String String)
    (paymentId : Nat) : HandlerResult :=
  match db.bookings.find? (fun b => decide (b.id = bookingId)) with
  | none => ⟨404, db⟩
  | some booking =>
    if booking.userId ≠ userId then ⟨403, db⟩
    else if booking.status = BookingStatus.cancelled then ⟨400, db⟩
    else
      let paymentAmount := amount.getD booking.totalPrice
      if paymentAmount ≤ 0 then ⟨400, db⟩
      else if booking.totalPrice < paymentAmount then ⟨400, db⟩
      else
        match (if provider = PaymentProvider.stripe
               then gateway.map some
               else Except.ok none) with
        | Except.error _ => ⟨500, db⟩
        | Except.ok intentId =>
          ⟨201, { db with payments := db.payments ++
            [{ id := paymentId
               bookingId := bookingId
               amount := paymentAmount
               paymentStatus := PaymentStatus.pending
               paymentProvider := provider
               paymentIntentId := intentId
               transactionId := none
               refunds := [] }] }⟩

/-- PATCH /api/payments/:id (payments.ts, `app.patch("/:id")`), admin only.

Sets the payment status (and transaction id when provided); as a side
effect promotes a `pending` booking to `confirmed` when the new status is
`completed`, and cancels a not-yet-`cancelled` booking when the new status
is `refunded`. -/
def updatePaymentStatus (db : DB) (isAdmin : Bool) (paymentId : Nat)
    (newStatus : PaymentStatus) (transactionId : Option String) :
    HandlerResult :=
  if ¬isAdmin then ⟨403, db⟩
  else
    match db.payments.find? (fun p => decide (p.id = paymentId)) with
    | none => ⟨404, db⟩
    | some payment =>
      match db.bookings.find? (fun b => decide (b.id = payment.bookingId)) with
      | none => ⟨404, db⟩
      | some booking =>
        let payments1 := updateWhere db.payments
          (fun p => decide (p.id = paymentId))
          (fun p => { p with
            paymentStatus := newStatus
            transactionId := match transactionId with
              | some t => some t
              | none => p.transactionId })
        let bookings1 :=
          if newStatus = PaymentStatus.completed ∧
             booking.status = BookingStatus.pending then
            updateWhere db.bookings
              (fun b => decide (b.id = payment.bookingId))
              (fun b => { b with status := BookingStatus.confirmed })
          else if newStatus = PaymentStatus.refunded ∧
                  booking.status ≠ BookingStatus.cancelled then
            updateWhere db.bookings
              (fun b => decide (b.id = payment.bookingId))
              (fun b => { b with status := BookingStatus.cancelled })
          else db.bookings
        ⟨200, { db with payments := payments1, bookings := bookings1 }⟩

/-- Result of the refund endpoint: HTTP status code, the refund amount the
handler settled on (reported back in the response body), and the new
database state. -/
structure RefundResult where
  code : Nat
  refundAmount : Option ℤ
  db : DB
deriving DecidableEq, Repr

/-- POST /api/payments/:id/refund (payments.ts, `app.post("/:id/refund")`),
admin only.

`gateway` stands for `stripe.refunds.create` (consulted only on the
stripe-with-intent path).  The handler: payment lookup (404) → status must
be `completed` or `partially_refunded` (400) → refund amount defaulting to
the payment's full amount → amount ≤ 0 (400) → amount > payment amount
(400) → provider refund (500 on Stripe failure, nothing persisted; 400
when a stripe payment has no intent id; non-stripe providers proceed) →
payment row updated (status `refunded` when the amount covers the payment,
else `partially_refunded`; refund appended to the metadata history) →
booking cancelled on a full refund when not already cancelled (200). -/
def processRefund (db : DB) (isAdmin : Bool) (paymentId : Nat)
    (amount : Option ℤ) (gateway : Except String String) : RefundResult :=
  if ¬isAdmin then ⟨403, none, db⟩
  else
    match db.payments.find? (fun p => decide (p.id = paymentId)) with
    | none => ⟨404, none, db⟩
    | some payment =>
      match db.bookings.find? (fun b => decide (b.id = payment.bookingId)) with
      | none => ⟨404, none, db⟩
      | some booking =>
        if payment.paymentStatus ≠ PaymentStatus.completed ∧
           payment.paymentStatus ≠ PaymentStatus.partially_refunded then
          ⟨400, none, db⟩
        else
          let refundAmountNum := amount.getD payment.amount
          if refundAmountNum ≤ 0 then ⟨400, none, db⟩
          else if payment.amount < refundAmountNum then ⟨400, none, db⟩
          else
            match (if payment.paymentProvider = PaymentProvider.stripe ∧
                      payment.paymentIntentId.isSome then
                     match gateway with
                     | Except.error _ => Except.error 500
                     | Except.ok refundId => Except.ok refundId
                   else if payment.paymentProvider ≠ PaymentProvider.stripe then
                     Except.ok "manual-refund"
                   else Except.error 400 : Except Nat String) with
            | Except.error errCode => ⟨errCode, none, db⟩
            | Except.ok _ =>
              let isFullRefund := payment.amount ≤ refundAmountNum
              let payments1 := updateWhere db.payments
                (fun p => decide (p.id = paymentId))
                (fun p => { p with
                  paymentStatus := if isFullRefund
                    then PaymentStatus.refunded
                    else PaymentStatus.partially_refunded
                  refunds := p.refunds ++ [refundAmountNum] })
              let bookings1 :=
                if isFullRefund ∧ booking.status ≠ BookingStatus.cancelled then
                  updateWhere db.bookings
                    (fun b => decide (b.id = payment.bookingId))
                    (fun b => { b with status := BookingStatus.cancelled })
                else db.bookings
              ⟨200, some refundAmountNum,
                { db with payments := payments1, bookings := bookings1 }⟩

/-- The payment-table update performed by `handlePaymentSuccess` once the
payment row has been found: mark it `completed` and store the charge id as
transaction id. -/
def successPayments (db : DB) (payment : Payment) (transactionId : String) :
    List Payment :=
  updateWhere db.payments
    (fun p => decide (p.id = payment.id))
    (fun p => { p with
      paymentStatus := PaymentStatus.completed
      transactionId := some transactionId })

/-- The booking total recomputed from scratch by `handlePaymentSuccess`
after its payment update: the sum over all the booking's payments whose
status is `completed`, read back from the updated table. -/
def successTotalPaid (db : DB) (payment : Payment) (transactionId : String) :
    ℤ :=
  amountSum (((successPayments db payment transactionId).filter
      (fun p => decide (p.bookingId = payment.bookingId))).filter
    (fun p => decide (p.paymentStatus = PaymentStatus.completed)))

/-- The booking-table update performed by `handlePaymentSuccess`: promote a
`pending` booking to `confirmed` when the recomputed total covers the
booking price. -/
def successBookings (db : DB) (payment : Payment) (transactionId : String) :
    List Booking :=
  match db.bookings.find? (fun b => decide (b.id = payment.bookingId)) with
  | none => db.bookings
  | some booking =>
    if booking.totalPrice ≤ successTotalPaid db payment transactionId ∧
       booking.status = BookingStatus.pending then
      updateWhere db.bookings
        (fun b => decide (b.id = payment.bookingId))
        (fun b => { b with status := BookingStatus.confirmed })
    else db.bookings

/-- The part of the `handlePaymentSuccess` webhook helper that runs once
the payment row has been found. -/
def handlePaymentSuccessAux (db : DB) (payment : Payment)
    (transactionId : String) : DB :=
  { db with payments := successPayments db payment transactionId
            bookings := successBookings db payment transactionId }

/-- Webhook helper `handlePaymentSuccess` (payments.ts).

Looks up the payment by its Stripe payment-intent id and applies
`handlePaymentSuccessAux`.  An unknown intent id is logged and acknowledged
without any change. -/
def handlePaymentSuccess (db : DB) (paymentIntentId transactionId : String) :
    DB :=
  match db.payments.find?
      (fun p => decide (p.paymentIntentId = some paymentIntentId)) with
  | none => db
  | some payment => handlePaymentSuccessAux db payment transactionId

/-- Webhook helper `handlePaymentFailed` (payments.ts): marks the payment
found by intent id as `failed`; no booking effect. -/
def handlePaymentFailed (db : DB) (paymentIntentId : String) : DB :=
  match db.payments.find?
      (fun p => decide (p.paymentIntentId = some paymentIntentId)) with
  | none => db
  | some payment =>
    { db with payments := (updateWhere db.payments
        (fun p => decide (p.id = payment.id))
        (fun p => { p with paymentStatus := PaymentStatus.failed })) }

/-- Webhook helper `handlePaymentCanceled` (payments.ts): identical to the
failed case (cancellation is treated as failure). -/
def handlePaymentCanceled (db : DB) (paymentIntentId : String) : DB :=
  handlePaymentFailed db paymentIntentId

/-- Webhook helper `handleRefund` (payments.ts).

Looks up the payment by its charge (transaction) id; marks it `refunded`
when the event's refunded amount covers the payment amount, else
`partially_refunded`; on a full refund, cancels the booking when every
payment of the booking is now `refunded` or `failed`. -/
def handleRefund (db : DB) (chargeId : String) (amountRefunded : ℤ) : DB :=
  match db.payments.find?
      (fun p => decide (p.transactionId = some chargeId)) with
  | none => db
  | some payment =>
    let isFullRefund := payment.amount ≤ amountRefunded
    let payments1 := updateWhere db.payments
      (fun p => decide (p.id = payment.id))
      (fun p => { p with
        paymentStatus := if isFullRefund
          then PaymentStatus.refunded
          else PaymentStatus.partially_refunded })
    let bookings1 :=
      if isFullRefund then
        let bookingPayments := payments1.filter
          (fun p => decide (p.bookingId = payment.bookingId))
        if bookingPayments.all
            (fun p => decide (p.paymentStatus = PaymentStatus.refunded ∨
                              p.paymentStatus = PaymentStatus.failed)) then
          updateWhere db.bookings
            (fun b => decide (b.id = payment.bookingId))
            (fun b => { b with status := BookingStatus.cancelled })
        else db.bookings
      else db.bookings
    { db with payments := payments1, bookings := bookings1 }

/-- A verified Stripe webhook event, as dispatched on in the endpoint's
`switch (event.type)`. -/
inductive StripeEvent where
  | paymentIntentSucceeded (paymentIntentId transactionId : String)
  | paymentIntentFailed (paymentIntentId : String)
  | paymentIntentCanceled (paymentIntentId : String)
  | chargeRefunded (chargeId : String) (amountRefunded : ℤ)
  | unknown
deriving DecidableEq, Repr

/-- The event dispatch of the webhook endpoint: unknown event types are
ignored. -/
def applyEvent (db : DB) : StripeEvent → DB
  | StripeEvent.paymentIntentSucceeded pi txn => handlePaymentSuccess db pi txn
  | StripeEvent.paymentIntentFailed pi => handlePaymentFailed db pi
  | StripeEvent.paymentIntentCanceled pi => handlePaymentCanceled db pi
  | StripeEvent.chargeRefunded ch amt => handleRefund db ch amt
  | StripeEvent.unknown => db

/-- POST /api/webhooks/payment (payments.ts, `app.post("/webhooks/payment")`).

`hasSignature`: a `stripe-signature` header is present;
`secretConfigured`: `STRIPE_WEBHOOK_SECRET` is set;
`verified`: the outcome of `stripe.webhooks.constructEvent` over the raw
body — `none` when signature verification throws, `some event` otherwise.
The source checks the header first (400), then the secret (500), then
verifies (400 on failure) and only then dispatches (200). -/
def webhookEndpoint (db : DB) (hasSignature secretConfigured : Bool)
    (verified : Option StripeEvent) : HandlerResult :=
  if ¬hasSignature then ⟨400, db⟩
  else if ¬secretConfigured then ⟨500, db⟩
  else
    match verified with
    | none => ⟨400, db⟩
    | some event => ⟨200, applyEvent db event⟩

/-- POST /api/bookings (bookings.ts, `app.post("/")`).

`bookingId` and `lineItemIds` stand for the `nanoid()` values chosen for
the new rows.  The handler: non-empty activity list (schema, 400) →
package lookup when given (404) → fetch of all requested activities
(404 when any is missing) → package-membership check (400) → total price
as the sum of the fetched activities' current catalog prices → insert of a
`pending` booking and one line item per activity, each line item
snapshotting the activity's current price as `priceAtBooking` (201). -/
def createBooking (db : DB) (userId : Nat) (packageId : Option Nat)
    (activityIds : List Nat) (bookingId : Nat) (lineItemIds : List Nat) :
    HandlerResult :=
  if activityIds.isEmpty then ⟨400, db⟩
  else
    match (match packageId with
           | none => some none
           | some pid =>
             (db.packages.find? (fun pkg => decide (pkg.id = pid))).map some :
           Option (Option Package)) with
    | none => ⟨404, db⟩
    | some _foundPackage =>
      let activitiesData := db.activities.filter
        (fun a => decide (a.id ∈ activityIds))
      if activitiesData.length ≠ activityIds.length then ⟨404, db⟩
      else
        let membershipOk : Bool :=
          match packageId with
          | none => true
          | some pid =>
            let packageActivityIds :=
              (db.packagesToActivities.filter
                (fun pa => decide (pa.1 = pid))).map Prod.snd
            (activityIds.filter
              (fun aid => decide (aid ∉ packageActivityIds))).isEmpty
        if ¬membershipOk then ⟨400, db⟩
        else
          let totalPrice := activitiesData.foldl
            (fun sum a => sum + a.price) 0
          let newBooking : Booking :=
            { id := bookingId
              userId := userId
              packageId := packageId
              status := BookingStatus.pending
              totalPrice := totalPrice }
          let newLineItems := (activitiesData.zip lineItemIds).map
            (fun al : Activity × Nat =>
              { id := al.2
                bookingId := bookingId
                activityId := al.1.id
                priceAtBooking := al.1.price
                scheduledAt := none
                guideId := none : BookingActivity })
          ⟨201, { db with
                  bookings := db.bookings ++ [newBooking]
                  bookingActivities := db.bookingActivities ++ newLineItems }⟩

/-- PATCH /api/bookings/:id (bookings.ts, `app.patch("/:id")`).

Updates booking fields (only the status field is modelled; dates and
special requests do not interact with any invariant here).  The handler:
booking lookup (404) → ownership (403) → rejection of any update to a
`cancelled` booking (400) → field update (200).  The status field accepts
any of the four booking statuses (updateBookingSchema). -/
def updateBooking (db : DB) (userId bookingId : Nat)
    (newStatus : Option BookingStatus) : HandlerResult :=
  match db.bookings.find? (fun b => decide (b.id = bookingId)) with
  | none => ⟨404, db⟩
  | some booking =>
    if booking.userId ≠ userId then ⟨403, db⟩
    else if booking.status = BookingStatus.cancelled then ⟨400, db⟩
    else
      ⟨200, { db with bookings := (updateWhere db.bookings
          (fun b => decide (b.id = bookingId))
          (fun b => { b with status := newStatus.getD b.status })) }⟩

/-- PATCH /api/bookings/:id/cancel (bookings.ts, `app.patch("/:id/cancel")`).

Booking lookup (404) → ownership (403) → already cancelled (400) →
status set to `cancelled` (200). -/
def cancelBooking (db : DB) (userId bookingId : Nat) : HandlerResult :=
  match db.bookings.find? (fun b => decide (b.id = bookingId)) with
  | none => ⟨404, db⟩
  | some booking =>
    if booking.userId ≠ userId then ⟨403, db⟩
    else if booking.status = BookingStatus.cancelled then ⟨400, db⟩
    else
      ⟨200, { db with bookings := (updateWhere db.bookings
          (fun b => decide (b.id = bookingId))
          (fun b => { b with status := BookingStatus.cancelled })) }⟩

/-- POST /api/bookings/:id/activities (bookings.ts,
`app.post("/:id/activities")`).

Booking lookup (404) → ownership (403) → cancelled booking (400) →
activity lookup (404) → duplicate line item (400) → insert of a line item
snapshotting the activity's current catalog price, and update of the
booking's `totalPrice` to its old value plus that price (201). -/
def addActivityToBooking (db : DB) (userId bookingId activityId : Nat)
    (scheduledAt : Option Nat) (newLineItemId : Nat) : HandlerResult :=
  match db.bookings.find? (fun b => decide (b.id = bookingId)) with
  | none => ⟨404, db⟩
  | some booking =>
    if booking.userId ≠ userId then ⟨403, db⟩
    else if booking.status = BookingStatus.cancelled then ⟨400, db⟩
    else
      match db.activities.find? (fun a => decide (a.id = activityId)) with
      | none => ⟨404, db⟩
      | some activity =>
        match db.bookingActivities.find?
            (fun ba => decide (ba.bookingId = bookingId ∧
                               ba.activityId = activityId)) with
        | some _ => ⟨400, db⟩
        | none =>
          let newItem : BookingActivity :=
            { id := newLineItemId
              bookingId := bookingId
              activityId := activityId
              priceAtBooking := activity.price
              scheduledAt := scheduledAt
              guideId := none }
          ⟨201, { db with
                  bookingActivities := db.bookingActivities ++ [newItem]
                  bookings := (updateWhere db.bookings
                    (fun b => decide (b.id = bookingId))
                    (fun b => { b with
                      totalPrice := booking.totalPrice + activity.price })) }⟩

/-- PATCH /api/bookings/:id/activities/:activityId (bookings.ts).

Booking lookup (404) → ownership (403) → line-item lookup (404) →
update of the line item's scheduled time only (200). -/
def updateBookingActivity (db : DB) (userId bookingId activityId : Nat)
    (scheduledAt : Option Nat) : HandlerResult :=
  match db.bookings.find? (fun b => decide (b.id = bookingId)) with
  | none => ⟨404, db⟩
  | some booking =>
    if booking.userId ≠ userId then ⟨403, db⟩
    else
      match db.bookingActivities.find?
          (fun ba => decide (ba.bookingId = bookingId ∧
                             ba.activityId = activityId)) with
      | none => ⟨404, db⟩
      | some bookingActivity =>
        ⟨200, { db with bookingActivities := (updateWhere db.bookingActivities
            (fun ba => decide (ba.id = bookingActivity.id))
            (fun ba => { ba with
              scheduledAt := match scheduledAt with
                | some t => some t
                | none => ba.scheduledAt })) }⟩

/-- PATCH /api/bookings/:id/activities/:activityId/guide (bookings.ts),
admin only.

Booking lookup (404) → line-item lookup (404) → guide lookup (404) →
inactive guide (400) → update of the line item's `guideId` only (200). -/
def assignGuide (db : DB) (bookingId activityId guideId : Nat) :
    HandlerResult :=
  match db.bookings.find? (fun b => decide (b.id = bookingId)) with
  | none => ⟨404, db⟩
  | some _booking =>
    match db.bookingActivities.find?
        (fun ba => decide (ba.bookingId = bookingId ∧
                           ba.activityId = activityId)) with
    | none => ⟨404, db⟩
    | some bookingActivity =>
      match db.guides.find? (fun g => decide (g.id = guideId)) with
      | none => ⟨404, db⟩
      | some guide =>
        if ¬guide.isActive then ⟨400, db⟩
        else
          ⟨200, { db with bookingActivities := (updateWhere db.bookingActivities
              (fun ba => decide (ba.id = bookingActivity.id))
              (fun ba => { ba with guideId := some guideId })) }⟩

/-- PATCH /api/activities/:id (activities.ts, `app.patch("/:id")`), admin
only: updates catalog fields of an activity (name and price modelled);
never touches booking line items. -/
def updateActivity (db : DB) (activityId : Nat) (newName : Option String)
    (newPrice : Option ℤ) : HandlerResult :=
  match db.activities.find? (fun a => decide (a.id = activityId)) with
  | none => ⟨404, db⟩
  | some _activity =>
    ⟨200, { db with activities := (updateWhere db.activities
        (fun a => decide (a.id = activityId))
        (fun a => { a with
          name := newName.getD a.name
          price := newPrice.getD a.price })) }⟩

/-! ### Concrete sample states (used to instantiate the theorems) -/

/-- A pending booking of 300.00 owned by user 7. -/
def booking300 : Booking :=
  { id := 1, userId := 7, packageId := none,
    status := BookingStatus.pending, totalPrice := 300 }

/-- A database holding only `booking300`. -/
def oneBookingDb : DB :=
  { bookings := [booking300], payments := [], bookingActivities := []
    activities := [], packages := [], packagesToActivities := [], guides := [] }

/-- Installment scenario: first payment of 200 against the 300 booking. -/
def instStep1 : HandlerResult :=
  createPayment oneBookingDb 7 1 (some 200) PaymentProvider.stripe
    (Except.ok "pi1") 101

/-- The first installment succeeds via webhook. -/
def instStep2 : DB := handlePaymentSuccess instStep1.db "pi1" "ch1"

/-- Second payment of 200 against the same booking (200 already completed). -/
def instStep3 : HandlerResult :=
  createPayment instStep2 7 1 (some 200) PaymentProvider.stripe
    (Except.ok "pi2") 102

/-- The second installment succeeds via webhook. -/
def instStep4 : DB := handlePaymentSuccess instStep3.db "pi2" "ch2"

/-- Third payment of 100 while 400 is already completed on the 300 booking. -/
def instStep5 : HandlerResult :=
  createPayment instStep4 7 1 (some 100) PaymentProvider.stripe
    (Except.ok "pi3") 103

/-- A confirmed booking of 300 owned by user 7. -/
def confirmedBooking300 : Booking :=
  { id := 1, userId := 7, packageId := none,
    status := BookingStatus.confirmed, totalPrice := 300 }

/-- A completed manual payment of 300 against booking 1, transaction "ch1". -/
def completedPayment300 : Payment :=
  { id := 1, bookingId := 1, amount := 300,
    paymentStatus := PaymentStatus.completed,
    paymentProvider := PaymentProvider.manual,
    paymentIntentId := none, transactionId := some "ch1", refunds := [] }

/-- A manual payment of 300 against booking 1 already partially refunded by
150 (refund history in the metadata). -/
def partiallyRefundedPayment300 : Payment :=
  { id := 1, bookingId := 1, amount := 300,
    paymentStatus := PaymentStatus.partially_refunded,
    paymentProvider := PaymentProvider.manual,
    paymentIntentId := none, transactionId := none, refunds := [150] }

/-- A completed stripe payment of 300 against booking 1 with an intent id. -/
def stripePayment300 : Payment :=
  { id := 1, bookingId := 1, amount := 300,
    paymentStatus := PaymentStatus.completed,
    paymentProvider := PaymentProvider.stripe,
    paymentIntentId := some "pi9", transactionId := some "ch9", refunds := [] }

/-- A confirmed booking of 300 with one completed manual payment of 300
whose transaction id is "ch1". -/
def completedPaymentDb : DB :=
  { bookings := [confirmedBooking300]
    payments := [completedPayment300]
    bookingActivities := [], activities := [], packages := []
    packagesToActivities := [], guides := [] }

/-- A confirmed booking of 300 with one manual payment of 300 already
partially refunded by 150. -/
def partialRefundDb : DB :=
  { bookings := [confirmedBooking300]
    payments := [partiallyRefundedPayment300]
    bookingActivities := [], activities := [], packages := []
    packagesToActivities := [], guides := [] }

/-- A confirmed booking of 300 with one completed stripe payment of 300
that has a payment-intent id. -/
def stripePaymentDb : DB :=
  { bookings := [confirmedBooking300]
    payments := [stripePayment300]
    bookingActivities := [], activities := [], packages := []
    packagesToActivities := [], guides := [] }

/-- A catalog with one activity priced 100 inside a package with a base
fee of 50. -/
def packageDb : DB :=
  { bookings := [], payments := [], bookingActivities := []
    activities := [{ id := 10, name := "Safari", price := 100 }]
    packages := [{ id := 1, basePrice := some 50 }]
    packagesToActivities := [(1, 10)]
    guides := [] }

/-- A pending booking of 100 owned by user 7, next to a catalog activity
priced 50 not yet on the booking, plus a line item and a guide for the
frame theorems. -/
def bookingAndCatalogDb : DB :=
  { bookings := [{ id := 1, userId := 7, packageId := none,
                   status := BookingStatus.pending, totalPrice := 100 }]
    payments := []
    bookingActivities := [{ id := 201, bookingId := 1, activityId := 11,
                            priceAtBooking := 100, scheduledAt := none,
                            guideId := none }]
    activities := [{ id := 10, name := "Safari", price := 50 },
                   { id := 11, name := "Hike", price := 100 }]
    packages := [], packagesToActivities := []
    guides := [{ id := 31, isActive := true }] }

/-- A cancelled booking of 300 owned by user 7. -/
def cancelledBooking300 : Booking :=
  { id := 1, userId := 7, packageId := none,
    status := BookingStatus.cancelled, totalPrice := 300 }

/-- A cancelled booking of 300 owned by user 7, with one completed manual
payment and a catalog activity. -/
def cancelledBookingDb : DB :=
  { bookings := [cancelledBooking300]
    payments := [{ id := 1, bookingId := 1, amount := 300,
                   paymentStatus := PaymentStatus.completed,
                   paymentProvider := PaymentProvider.manual,
                   paymentIntentId := some "pi1", transactionId := some "ch1",
                   refunds := [] }]
    bookingActivities := [], activities := [{ id := 10, name := "Safari", price := 50 }]
    packages := [], packagesToActivities := [], guides := [] }

/-! ### Helper lemmas about the table primitives -/

theorem find?_congr_pred {l : List α} {p q : α → Bool}
    (h : ∀ x ∈ l, p x = q x) : l.find? p = l.find? q := by
  induction l with
  | nil => rfl
  | cons a t ih =>
    have ha := h a (List.mem_cons_self a t)
    by_cases hp : p a = true
    · rw [List.find?_cons_of_pos _ hp, List.find?_cons_of_pos _ (ha ▸ hp)]
    · rw [List.find?_cons_of_neg _ hp, List.find?_cons_of_neg _ (ha ▸ hp)]
      exact ih (fun x hx => h x (List.mem_cons_of_mem a hx))

theorem find?_updateWhere (l : List α) (pred q : α → Bool) (f : α → α)
    (hq : ∀ x, q (f x) = q x) :
    (updateWhere l pred f).find? q =
      (l.find? q).map (fun x => if pred x then f x else x) := by
  induction l with
  | nil => rfl
  | cons a t ih =>
    have hga : q (if pred a then f a else a) = q a := by
      by_cases hp : pred a <;> simp [hp, hq]
    simp only [updateWhere, List.map_cons]
    by_cases hqa : q a = true
    · rw [List.find?_cons_of_pos _ (hga ▸ hqa), List.find?_cons_of_pos _ hqa]
      rfl
    · rw [List.find?_cons_of_neg _ (fun hc => hqa (hga ▸ hc)),
        List.find?_cons_of_neg _ hqa]
      exact ih

theorem map_congr_fun {l : List α} {f g : α → β}
    (h : ∀ x ∈ l, f x = g x) : l.map f = l.map g := by
  induction l with
  | nil => rfl
  | cons a t ih =>
    simp only [List.map_cons]
    rw [h a (List.mem_cons_self a t),
      ih (fun x hx => h x (List.mem_cons_of_mem a hx))]

theorem map_fix {l : List α} {f : α → α}
    (h : ∀ x ∈ l, f x = x) : l.map f = l := by
  induction l with
  | nil => rfl
  | cons a t ih =>
    simp only [List.map_cons]
    rw [h a (List.mem_cons_self a t),
      ih (fun x hx => h x (List.mem_cons_of_mem a hx))]

theorem updateWhere_self_comp (l : List α) (pred : α → Bool) (f : α → α)
    (hpred : ∀ x, pred (f x) = pred x) (hf : ∀ x, f (f x) = f x) :
    updateWhere (updateWhere l pred f) pred f = updateWhere l pred f := by
  simp only [updateWhere, List.map_map]
  apply map_congr_fun
  intro x _
  by_cases hp : pred x = true
  · simp only [Function.comp_apply, if_pos hp, hpred, hf]
  · simp only [Function.comp_apply, if_neg hp]

theorem priceSnapshots_updateWhere (db : DB) (pred : BookingActivity → Bool)
    (f : BookingActivity → BookingActivity)
    (hid : ∀ ba, (f ba).id = ba.id)
    (hprice : ∀ ba, (f ba).priceAtBooking = ba.priceAtBooking) :
    priceSnapshots
      { db with bookingActivities := updateWhere db.bookingActivities pred f } =
      priceSnapshots db := by
  simp only [priceSnapshots, updateWhere, List.map_map]
  apply map_congr_fun
  intro x _
  by_cases hp : pred x = true
  · simp only [Function.comp_apply, if_pos hp, hid, hprice]
  · simp only [Function.comp_apply, if_neg hp]

theorem totalPrices_updateWhere (db : DB) (pred : Booking → Bool)
    (f : Booking → Booking)
    (hid : ∀ b, (f b).id = b.id)
    (hprice : ∀ b, (f b).totalPrice = b.totalPrice) :
    totalPrices { db with bookings := updateWhere db.bookings pred f } =
      totalPrices db := by
  simp only [totalPrices, updateWhere, List.map_map]
  apply map_congr_fun
  intro x _
  by_cases hp : pred x = true
  · simp only [Function.comp_apply, if_pos hp, hid, hprice]
  · simp only [Function.comp_apply, if_neg hp]

/-! ### Claim theorems -/

/-- Claim C10: no operation after a line item is created updates its
`priceAtBooking`: updating the catalog activity (even its price), updating
the booking activity's schedule, and assigning a guide all leave the
(id, priceAtBooking) view of every line item unchanged. -/
theorem priceAtBooking_never_updated (db : DB)
    (userId bookingId activityId guideId : Nat)
    (scheduledAt : Option Nat) (newName : Option String) (newPrice : Option ℤ) :
    priceSnapshots (updateActivity db activityId newName newPrice).db =
      priceSnapshots db ∧
    priceSnapshots
      (updateBookingActivity db userId bookingId activityId scheduledAt).db =
      priceSnapshots db ∧
    priceSnapshots (assignGuide db bookingId activityId guideId).db =
      priceSnapshots db := by
  refine ⟨?_, ?_, ?_⟩
  · unfold updateActivity
    cases hfind : db.activities.find? (fun a => decide (a.id = activityId)) with
    | none => rfl
    | some a => simp only [priceSnapshots]
  · unfold updateBookingActivity
    cases hb : db.bookings.find? (fun b => decide (b.id = bookingId)) with
    | none => rfl
    | some booking =>
      dsimp only
      by_cases hown : booking.userId ≠ userId
      · rw [if_pos hown]
      · rw [if_neg hown]
        cases hba : db.bookingActivities.find?
            (fun ba => decide (ba.bookingId = bookingId ∧
                               ba.activityId = activityId)) with
        | none => rfl
        | some bookingActivity =>
          exact priceSnapshots_updateWhere db _ _
            (fun ba => rfl) (fun ba => rfl)
  · unfold assignGuide
    cases hb : db.bookings.find? (fun b => decide (b.id = bookingId)) with
    | none => rfl
    | some booking =>
      dsimp only
      cases hba : db.bookingActivities.find?
          (fun ba => decide (ba.bookingId = bookingId ∧
                             ba.activityId = activityId)) with
      | none => rfl
      | some bookingActivity =>
        dsimp only
        cases hg : db.guides.find? (fun g => decide (g.id = guideId)) with
        | none => rfl
        | some guide =>
          dsimp only
          by_cases hact : ¬guide.isActive = true
          · rw [if_pos hact]
          · rw [if_neg hact]
            exact priceSnapshots_updateWhere db _ _
              (fun ba => rfl) (fun ba => rfl)

/-- Claim C4 (counterexample): a webhook request that arrives while the
webhook secret is not configured is not always answered with a server
error: when the stripe-signature header is also absent, the endpoint
answers with the client error 400 (the signature-presence check runs
before the secret check), so the claim's unconditional
"missing secret → server error" fails at this input. -/
theorem webhook_missing_secret_counterexample :
    (webhookEndpoint oneBookingDb false false none).code = 400 ∧
    (webhookEndpoint oneBookingDb false false none).code ≠ 500 := by
  exact ⟨rfl, by decide⟩

/-- Claim C4 (amended): a webhook request with a missing signature header,
or whose signature does not verify, is answered with the client error 400
and mutates no payment or booking record; when the secret is not
configured and a signature header is present, the endpoint answers with
the server error 500 (distinct from signature failure), also without any
state mutation.  (The source checks signature presence before secret
configuration, so a request with no signature header gets 400 even when
the secret is missing.) -/
theorem webhook_rejection_no_mutation (db : DB) (hasSig sec : Bool)
    (verified : Option StripeEvent) :
    (hasSig = false →
      webhookEndpoint db hasSig sec verified = ⟨400, db⟩) ∧
    (hasSig = true → sec = false →
      webhookEndpoint db hasSig sec verified = ⟨500, db⟩) ∧
    (hasSig = true → sec = true → verified = none →
      webhookEndpoint db hasSig sec verified = ⟨400, db⟩) := by
  refine ⟨fun h => ?_, fun h1 h2 => ?_, fun h1 h2 h3 => ?_⟩
  · subst h; rfl
  · subst h1; subst h2; rfl
  · subst h1; subst h2; subst h3; rfl

/-- Witness for C4 (amended), at a concrete state: signature present,
secret unconfigured, answered 500 with the state unchanged. -/
theorem webhook_rejection_no_mutation_witness :
    webhookEndpoint oneBookingDb true false none = ⟨500, oneBookingDb⟩ :=
  (webhook_rejection_no_mutation oneBookingDb true false none).2.1 rfl rfl

/-- Claim C5: at the failing input (a package with base fee 50 containing
one activity priced 100), createBooking succeeds with
`totalPrice = 100` — the sum of the activity catalog prices alone, the
package base fee is never added (SCHEMA.md prescribes calculating
total_price from activity prices and the optional base_price) — while the
line-item snapshot does equal the activity's current catalog price. -/
theorem createBooking_ignores_package_base_fee :
    (createBooking packageDb 7 (some 1) [10] 1 [201]).code = 201 ∧
    totalPriceOf (createBooking packageDb 7 (some 1) [10] 1 [201]).db 1 =
      some 100 ∧
    priceSnapshots (createBooking packageDb 7 (some 1) [10] 1 [201]).db =
      [(201, 100)] ∧
    (100 : ℤ) ≠ 100 + 50 := by
  refine ⟨rfl, by decide, by decide, by norm_num⟩

/-- Claim C6 (counterexample): adding an activity to an existing booking
does change the booking's `totalPrice`: on a booking of total 100, adding
a catalog activity priced 50 succeeds and leaves the booking with
`totalPrice = 150`. -/
theorem addActivity_changes_totalPrice :
    totalPriceOf bookingAndCatalogDb 1 = some 100 ∧
    (addActivityToBooking bookingAndCatalogDb 7 1 10 none 500).code = 201 ∧
    totalPriceOf (addActivityToBooking bookingAndCatalogDb 7 1 10 none 500).db 1 =
      some 150 ∧
    (100 : ℤ) ≠ 150 := by
  refine ⟨by decide, rfl, by decide, by norm_num⟩

/-- Claim C7 (counterexample): for a payment of 300 with 150 already
refunded (status `partially_refunded`), a refund request without an amount
uses the payment's full original amount 300 as the default — not the
remaining 150 — and therefore marks the payment `refunded`, where the
claimed remaining-amount default would have produced
`partially_refunded`. -/
theorem refund_default_ignores_prior_refunds :
    (processRefund partialRefundDb true 1 none (Except.ok "re1")).code = 200 ∧
    (processRefund partialRefundDb true 1 none (Except.ok "re1")).refundAmount =
      some 300 ∧
    paymentStatusOf
      (processRefund partialRefundDb true 1 none (Except.ok "re1")).db 1 =
      some PaymentStatus.refunded ∧
    (300 : ℤ) ≠ 300 - 150 := by
  refine ⟨rfl, by decide, by decide, by norm_num⟩

/-- Claim C9 (counterexample): booking status `completed` is reachable
directly from `pending`: updateBooking accepts any status value on a
non-cancelled booking, so a pending booking is moved straight to
`completed` without ever being `confirmed`. -/
theorem updateBooking_completed_from_pending :
    bookingStatusOf bookingAndCatalogDb 1 = some BookingStatus.pending ∧
    (updateBooking bookingAndCatalogDb 7 1 (some BookingStatus.completed)).code =
      200 ∧
    bookingStatusOf
      (updateBooking bookingAndCatalogDb 7 1 (some BookingStatus.completed)).db 1 =
      some BookingStatus.completed := by
  refine ⟨by decide, rfl, by decide⟩

/-- Claim C3: the `payment_intent.succeeded` webhook handler is
idempotent — applying it twice with the same event leaves the payments and
bookings state identical to applying it once (it sets absolute status
values and recomputes the booking aggregate from scratch, and a promoted
booking is no longer `pending`). -/
theorem handlePaymentSuccess_idempotent (db : DB) (pi txn : String) :
    handlePaymentSuccess (handlePaymentSuccess db pi txn) pi txn =
      handlePaymentSuccess db pi txn := by
  cases hfind : db.payments.find?
      (fun p => decide (p.paymentIntentId = some pi)) with
  | none =>
    have h1 : handlePaymentSuccess db pi txn = db := by
      unfold handlePaymentSuccess
      rw [hfind]
    simp only [h1]
  | some payment =>
    have h1 : handlePaymentSuccess db pi txn =
        handlePaymentSuccessAux db payment txn := by
      unfold handlePaymentSuccess
      rw [hfind]
    have hfind1 : (handlePaymentSuccessAux db payment txn).payments.find?
        (fun p => decide (p.paymentIntentId = some pi)) =
        some { payment with
               paymentStatus := PaymentStatus.completed
               transactionId := some txn } := by
      show (updateWhere db.payments (fun p => decide (p.id = payment.id))
          (fun p => { p with
            paymentStatus := PaymentStatus.completed
            transactionId := some txn })).find?
          (fun p => decide (p.paymentIntentId = some pi)) = _
      rw [find?_updateWhere db.payments
        (fun p => decide (p.id = payment.id))
        (fun p => decide (p.paymentIntentId = some pi))
        (fun p => { p with
          paymentStatus := PaymentStatus.completed
          transactionId := some txn }) (fun x => rfl), hfind]
      simp
    rw [h1]
    unfold handlePaymentSuccess
    rw [hfind1]
    generalize hup : ({ payment with
      paymentStatus := PaymentStatus.completed
      transactionId := some txn } : Payment) = p2
    have hp2id : p2.id = payment.id := by rw [← hup]
    have hp2bid : p2.bookingId = payment.bookingId := by rw [← hup]
    have hP : successPayments (handlePaymentSuccessAux db payment txn) p2 txn =
        successPayments db payment txn := by
      show updateWhere (successPayments db payment txn)
          (fun p => decide (p.id = p2.id))
          (fun p => { p with
            paymentStatus := PaymentStatus.completed
            transactionId := some txn }) = successPayments db payment txn
      simp only [hp2id]
      exact updateWhere_self_comp db.payments
        (fun p => decide (p.id = payment.id)) _ (fun x => rfl) (fun x => rfl)
    have hTP : successTotalPaid (handlePaymentSuccessAux db payment txn) p2 txn =
        successTotalPaid db payment txn := by
      unfold successTotalPaid
      rw [hP]
      simp only [hp2bid]
    have hSB : (handlePaymentSuccessAux db payment txn).bookings =
        successBookings db payment txn := rfl
    have hB : successBookings (handlePaymentSuccessAux db payment txn) p2 txn =
        successBookings db payment txn := by
      unfold successBookings
      simp only [hp2bid, hTP, hSB]
      cases hbf : db.bookings.find?
          (fun b => decide (b.id = payment.bookingId)) with
      | none =>
        have hsb0 : successBookings db payment txn = db.bookings := by
          unfold successBookings
          rw [hbf]
        rw [hsb0, hbf]
      | some bk =>
        have predbk0 := List.find?_some hbf
        have predbk : decide (bk.id = payment.bookingId) = true := predbk0
        by_cases hcond : bk.totalPrice ≤ successTotalPaid db payment txn ∧
            bk.status = BookingStatus.pending
        · have hsb1 : successBookings db payment txn =
              updateWhere db.bookings
                (fun b => decide (b.id = payment.bookingId))
                (fun b => { b with status := BookingStatus.confirmed }) := by
            unfold successBookings
            rw [hbf]
            dsimp only
            rw [if_pos hcond]
          have hfb : (updateWhere db.bookings
              (fun b => decide (b.id = payment.bookingId))
              (fun b => { b with status := BookingStatus.confirmed })).find?
              (fun b => decide (b.id = payment.bookingId)) =
              some { bk with status := BookingStatus.confirmed } := by
            rw [find?_updateWhere db.bookings
              (fun b => decide (b.id = payment.bookingId))
              (fun b => decide (b.id = payment.bookingId))
              (fun b => { b with status := BookingStatus.confirmed })
              (fun x => rfl), hbf]
            dsimp only [Option.map]
            rw [if_pos predbk]
          rw [hsb1, hfb]
          dsimp only
          rw [if_neg (fun hc => absurd hc.2 (by decide))]
          rw [if_pos hcond]
        · have hsb2 : successBookings db payment txn = db.bookings := by
            unfold successBookings
            rw [hbf]
            dsimp only
            rw [if_neg hcond]
          rw [hsb2, hbf]
    calc handlePaymentSuccessAux (handlePaymentSuccessAux db payment txn) p2 txn
        = { handlePaymentSuccessAux db payment txn with
            payments := successPayments (handlePaymentSuccessAux db payment txn) p2 txn
            bookings := successBookings (handlePaymentSuccessAux db payment txn) p2 txn } := rfl
      _ = { handlePaymentSuccessAux db payment txn with
            payments := successPayments db payment txn
            bookings := successBookings db payment txn } := by rw [hP, hB]
      _ = handlePaymentSuccessAux db payment txn := rfl

/-- Claim C1 (counterexample): the createPayment amount check only compares
the single payment's amount with the booking total and never consults the
booking's existing payments.  On a booking of 300: a 200 installment is
completed; a second createPayment of 200 is accepted (completing it later
pushes the completed sum to 400 > 300, so by the claim it should have been
rejected); after both webhooks, a further createPayment of 100 succeeds
while the completed sum 400 already exceeds the total 300 — so the sum of
completed payments does exceed `totalPrice` immediately after a successful
createPayment call. -/
theorem createPayment_no_cumulative_check :
    completedSum instStep2 1 = 200 ∧
    instStep3.code = 201 ∧
    instStep5.code = 201 ∧
    completedSum instStep5.db 1 = 400 ∧
    totalPriceOf instStep5.db 1 = some 300 ∧
    (300 : ℤ) < 400 := by
  refine ⟨by decide, by decide, by decide, by decide, by decide, by decide⟩

theorem completedSum_createPayment (db : DB) (userId bookingId bid paymentId : Nat)
    (amount : Option ℤ) (provider : PaymentProvider)
    (gateway : Except String String) :
    completedSum
      (createPayment db userId bookingId amount provider gateway paymentId).db
      bid = completedSum db bid := by
  unfold createPayment
  cases hfind : db.bookings.find? (fun b => decide (b.id = bookingId)) with
  | none => rfl
  | some booking =>
    dsimp only
    by_cases hown : booking.userId ≠ userId
    · rw [if_pos hown]
    · rw [if_neg hown]
      by_cases hcan : booking.status = BookingStatus.cancelled
      · rw [if_pos hcan]
      · rw [if_neg hcan]
        by_cases hz : amount.getD booking.totalPrice ≤ 0
        · rw [if_pos hz]
        · rw [if_neg hz]
          by_cases hgt : booking.totalPrice < amount.getD booking.totalPrice
          · rw [if_pos hgt]
          · rw [if_neg hgt]
            cases hgw : (if provider = PaymentProvider.stripe
                then gateway.map some
                else Except.ok none : Except String (Option String)) with
            | error e => rfl
            | ok intentId =>
              dsimp only
              unfold completedSum paymentsOf
              dsimp only
              rw [List.filter_append, List.filter_append]
              have hsingle : List.filter
                  (fun p => decide (p.paymentStatus = PaymentStatus.completed))
                  (List.filter (fun p => decide (p.bookingId = bid))
                    [({ id := paymentId
                        bookingId := bookingId
                        amount := amount.getD booking.totalPrice
                        paymentStatus := PaymentStatus.pending
                        paymentProvider := provider
                        paymentIntentId := intentId
                        transactionId := none
                        refunds := [] } : Payment)]) = [] := by
                by_cases hb : decide ((bookingId : Nat) = bid) = true
                · simp [List.filter, hb]
                · simp [List.filter, hb]
              rw [hsingle, List.append_nil]

theorem createPayment_code201_amount_bounds (db : DB)
    (userId bookingId paymentId : Nat) (amount : Option ℤ)
    (provider : PaymentProvider) (gateway : Except String String)
    (booking : Booking)
    (hfind : db.bookings.find? (fun b => decide (b.id = bookingId)) =
      some booking) :
    (createPayment db userId bookingId amount provider gateway paymentId).code =
      201 →
    0 < amount.getD booking.totalPrice ∧
      amount.getD booking.totalPrice ≤ booking.totalPrice := by
  unfold createPayment
  rw [hfind]
  dsimp only
  by_cases hown : booking.userId ≠ userId
  · rw [if_pos hown]
    intro h
    simp at h
  · rw [if_neg hown]
    by_cases hcan : booking.status = BookingStatus.cancelled
    · rw [if_pos hcan]
      intro h
      simp at h
    · rw [if_neg hcan]
      by_cases hz : amount.getD booking.totalPrice ≤ 0
      · rw [if_pos hz]
        intro h
        simp at h
      · rw [if_neg hz]
        by_cases hgt : booking.totalPrice < amount.getD booking.totalPrice
        · rw [if_pos hgt]
          intro h
          simp at h
        · rw [if_neg hgt]
          intro _
          exact ⟨lt_of_not_le hz, le_of_not_lt hgt⟩

/-- Claim C1 (amended): createPayment rejects exactly a non-positive amount
or a single amount exceeding the booking total — existing payments are
never consulted — and a created payment starts as `pending`, so a single
successful createPayment call never changes the sum of the booking's
`completed` payment amounts (which can therefore exceed `totalPrice` once
several individually-capped payments complete). -/
theorem createPayment_completed_sum_frame_and_cap (db : DB)
    (userId bookingId bid paymentId : Nat) (amount : Option ℤ)
    (provider : PaymentProvider) (gateway : Except String String)
    (booking : Booking)
    (hfind : db.bookings.find? (fun b => decide (b.id = bookingId)) =
      some booking) :
    completedSum
      (createPayment db userId bookingId amount provider gateway paymentId).db
      bid = completedSum db bid ∧
    ((createPayment db userId bookingId amount provider gateway paymentId).code =
        201 →
      0 < amount.getD booking.totalPrice ∧
        amount.getD booking.totalPrice ≤ booking.totalPrice) :=
  ⟨completedSum_createPayment db userId bookingId bid paymentId amount provider
      gateway,
    createPayment_code201_amount_bounds db userId bookingId paymentId amount
      provider gateway booking hfind⟩

/-- Witness for C1 (amended) at a concrete input: a payment of 200 against
the fresh 300 booking leaves the completed sum unchanged and satisfies the
single-payment bounds. -/
theorem createPayment_completed_sum_frame_and_cap_witness :
    completedSum
      (createPayment oneBookingDb 7 1 (some 200) PaymentProvider.stripe
        (Except.ok "pi1") 101).db 1 = completedSum oneBookingDb 1 ∧
    ((createPayment oneBookingDb 7 1 (some 200) PaymentProvider.stripe
        (Except.ok "pi1") 101).code = 201 →
      0 < (some (200 : ℤ)).getD booking300.totalPrice ∧
        (some (200 : ℤ)).getD booking300.totalPrice ≤ booking300.totalPrice) :=
  createPayment_completed_sum_frame_and_cap oneBookingDb 7 1 1 101 (some 200)
    PaymentProvider.stripe (Except.ok "pi1") booking300 rfl

theorem processRefund_refund_outcomes (db : DB) (paymentId : Nat)
    (amount : Option ℤ) (gateway : Except String String)
    (payment : Payment) (booking : Booking)
    (hp : db.payments.find? (fun p => decide (p.id = paymentId)) =
      some payment)
    (hb : db.bookings.find? (fun b => decide (b.id = payment.bookingId)) =
      some booking)
    (hstatus : payment.paymentStatus = PaymentStatus.completed ∨
               payment.paymentStatus = PaymentStatus.partially_refunded)
    (hpos : 0 < amount.getD payment.amount)
    (hle : amount.getD payment.amount ≤ payment.amount)
    (hgw : payment.paymentProvider ≠ PaymentProvider.stripe ∨
           (payment.paymentIntentId.isSome = true ∧
             ∃ r, gateway = Except.ok r)) :
    (payment.amount ≤ amount.getD payment.amount →
      paymentStatusOf (processRefund db true paymentId amount gateway).db
          paymentId = some PaymentStatus.refunded ∧
      bookingStatusOf (processRefund db true paymentId amount gateway).db
          payment.bookingId = some BookingStatus.cancelled) ∧
    (amount.getD payment.amount < payment.amount →
      paymentStatusOf (processRefund db true paymentId amount gateway).db
          paymentId = some PaymentStatus.partially_refunded ∧
      (processRefund db true paymentId amount gateway).db.bookings =
        db.bookings) := by
  have hpp0 := List.find?_some hp
  have hpp : decide (payment.id = paymentId) = true := hpp0
  have hpb0 := List.find?_some hb
  have hpb : decide (booking.id = payment.bookingId) = true := hpb0
  have hshape : processRefund db true paymentId amount gateway =
      ⟨200, some (amount.getD payment.amount),
        { db with
          payments := updateWhere db.payments
            (fun p => decide (p.id = paymentId))
            (fun p => { p with
              paymentStatus :=
                if payment.amount ≤ amount.getD payment.amount
                then PaymentStatus.refunded
                else PaymentStatus.partially_refunded
              refunds := p.refunds ++ [amount.getD payment.amount] })
          bookings :=
            if payment.amount ≤ amount.getD payment.amount ∧
               booking.status ≠ BookingStatus.cancelled
            then updateWhere db.bookings
              (fun b => decide (b.id = payment.bookingId))
              (fun b => { b with status := BookingStatus.cancelled })
            else db.bookings }⟩ := by
    unfold processRefund
    rw [if_neg (by decide : ¬¬(true : Bool) = true)]
    rw [hp]
    dsimp only
    rw [hb]
    dsimp only
    rw [if_neg (fun hc => hstatus.elim (fun h => hc.1 h) (fun h => hc.2 h))]
    rw [if_neg (not_le.mpr hpos), if_neg (not_lt.mpr hle)]
    by_cases hps : payment.paymentProvider = PaymentProvider.stripe
    · have hok := hgw.resolve_left (fun hns => hns hps)
      obtain ⟨hsome, r, hr⟩ := hok
      rw [if_pos ⟨hps, hsome⟩, hr]
    · rw [if_neg (fun hc => hps hc.1), if_pos hps]
  refine ⟨fun hfull => ⟨?_, ?_⟩, fun hpart => ⟨?_, ?_⟩⟩
  · rw [hshape]
    unfold paymentStatusOf
    dsimp only
    rw [find?_updateWhere db.payments
      (fun p => decide (p.id = paymentId))
      (fun p => decide (p.id = paymentId))
      (fun p => { p with
        paymentStatus :=
          if payment.amount ≤ amount.getD payment.amount
          then PaymentStatus.refunded
          else PaymentStatus.partially_refunded
        refunds := p.refunds ++ [amount.getD payment.amount] })
      (fun x => rfl), hp]
    dsimp only [Option.map]
    rw [if_pos hpp]
    dsimp only
    rw [if_pos hfull]
  · rw [hshape]
    unfold bookingStatusOf
    dsimp only
    by_cases hbc : booking.status = BookingStatus.cancelled
    · rw [if_neg (fun hc => hc.2 hbc), hb]
      dsimp only [Option.map]
      rw [hbc]
    · rw [if_pos ⟨hfull, hbc⟩]
      rw [find?_updateWhere db.bookings
        (fun b => decide (b.id = payment.bookingId))
        (fun b => decide (b.id = payment.bookingId))
        (fun b => { b with status := BookingStatus.cancelled })
        (fun x => rfl), hb]
      dsimp only [Option.map]
      rw [if_pos hpb]
  · rw [hshape]
    unfold paymentStatusOf
    dsimp only
    rw [find?_updateWhere db.payments
      (fun p => decide (p.id = paymentId))
      (fun p => decide (p.id = paymentId))
      (fun p => { p with
        paymentStatus :=
          if payment.amount ≤ amount.getD payment.amount
          then PaymentStatus.refunded
          else PaymentStatus.partially_refunded
        refunds := p.refunds ++ [amount.getD payment.amount] })
      (fun x => rfl), hp]
    dsimp only [Option.map]
    rw [if_pos hpp]
    dsimp only
    rw [if_neg (not_le.mpr hpart)]
  · rw [hshape]
    dsimp only
    rw [if_neg (fun hc => absurd hc.1 (not_le.mpr hpart))]

theorem handleRefund_refund_outcomes (db : DB) (chargeId : String)
    (amountRefunded : ℤ) (wp : Payment) (wbooking : Booking)
    (hwp : db.payments.find?
      (fun p => decide (p.transactionId = some chargeId)) = some wp)
    (hwid : db.payments.find? (fun p => decide (p.id = wp.id)) = some wp)
    (hwb : db.bookings.find? (fun b => decide (b.id = wp.bookingId)) =
      some wbooking) :
    (wp.amount ≤ amountRefunded →
      paymentStatusOf (handleRefund db chargeId amountRefunded) wp.id =
        some PaymentStatus.refunded ∧
      ((∀ q ∈ db.payments, q.bookingId = wp.bookingId → q.id ≠ wp.id →
          q.paymentStatus = PaymentStatus.failed) →
        bookingStatusOf (handleRefund db chargeId amountRefunded)
          wp.bookingId = some BookingStatus.cancelled)) ∧
    (amountRefunded < wp.amount →
      paymentStatusOf (handleRefund db chargeId amountRefunded) wp.id =
        some PaymentStatus.partially_refunded ∧
      (handleRefund db chargeId amountRefunded).bookings = db.bookings) := by
  have hwid0 := List.find?_some hwid
  have hwidp : decide (wp.id = wp.id) = true := hwid0
  have hwb0 := List.find?_some hwb
  have hwbp : decide (wbooking.id = wp.bookingId) = true := hwb0
  have hshape : handleRefund db chargeId amountRefunded =
      { db with
        payments := updateWhere db.payments
          (fun p => decide (p.id = wp.id))
          (fun p => { p with
            paymentStatus :=
              if wp.amount ≤ amountRefunded
              then PaymentStatus.refunded
              else PaymentStatus.partially_refunded })
        bookings :=
          if wp.amount ≤ amountRefunded then
            if ((updateWhere db.payments
                  (fun p => decide (p.id = wp.id))
                  (fun p => { p with
                    paymentStatus :=
                      if wp.amount ≤ amountRefunded
                      then PaymentStatus.refunded
                      else PaymentStatus.partially_refunded })).filter
                (fun p => decide (p.bookingId = wp.bookingId))).all
                (fun p => decide
                  (p.paymentStatus = PaymentStatus.refunded ∨
                   p.paymentStatus = PaymentStatus.failed)) then
              updateWhere db.bookings
                (fun b => decide (b.id = wp.bookingId))
                (fun b => { b with status := BookingStatus.cancelled })
            else db.bookings
          else db.bookings } := by
    unfold handleRefund
    rw [hwp]
  refine ⟨fun hfull => ⟨?_, fun hlast => ?_⟩, fun hpart => ⟨?_, ?_⟩⟩
  · rw [hshape]
    unfold paymentStatusOf
    dsimp only
    rw [find?_updateWhere db.payments
      (fun p => decide (p.id = wp.id))
      (fun p => decide (p.id = wp.id))
      (fun p => { p with
        paymentStatus :=
          if wp.amount ≤ amountRefunded
          then PaymentStatus.refunded
          else PaymentStatus.partially_refunded })
      (fun x => rfl), hwid]
    dsimp only [Option.map]
    rw [if_pos hwidp]
    dsimp only
    rw [if_pos hfull]
  · rw [hshape]
    unfold bookingStatusOf
    dsimp only
    rw [if_pos hfull]
    have hall : ((updateWhere db.payments
          (fun p => decide (p.id = wp.id))
          (fun p => { p with
            paymentStatus :=
              if wp.amount ≤ amountRefunded
              then PaymentStatus.refunded
              else PaymentStatus.partially_refunded })).filter
        (fun p => decide (p.bookingId = wp.bookingId))).all
        (fun p => decide
          (p.paymentStatus = PaymentStatus.refunded ∨
           p.paymentStatus = PaymentStatus.failed)) = true := by
      rw [List.all_eq_true]
      intro x hx
      rw [List.mem_filter] at hx
      obtain ⟨hx1, hx2⟩ := hx
      unfold updateWhere at hx1
      rw [List.mem_map] at hx1
      obtain ⟨y, hy, hxy⟩ := hx1
      by_cases hyid : decide (y.id = wp.id) = true
      · rw [if_pos hyid] at hxy
        subst hxy
        dsimp only
        rw [if_pos hfull]
        decide
      · rw [if_neg hyid] at hxy
        subst hxy
        have hybid : y.bookingId = wp.bookingId := of_decide_eq_true hx2
        have hyne : y.id ≠ wp.id := fun h => hyid (decide_eq_true h)
        rw [hlast y hy hybid hyne]
        decide
    rw [if_pos hall]
    rw [find?_updateWhere db.bookings
      (fun b => decide (b.id = wp.bookingId))
      (fun b => decide (b.id = wp.bookingId))
      (fun b => { b with status := BookingStatus.cancelled })
      (fun x => rfl), hwb]
    dsimp only [Option.map]
    rw [if_pos hwbp]
  · rw [hshape]
    unfold paymentStatusOf
    dsimp only
    rw [find?_updateWhere db.payments
      (fun p => decide (p.id = wp.id))
      (fun p => decide (p.id = wp.id))
      (fun p => { p with
        paymentStatus :=
          if wp.amount ≤ amountRefunded
          then PaymentStatus.refunded
          else PaymentStatus.partially_refunded })
      (fun x => rfl), hwid]
    dsimp only [Option.map]
    rw [if_pos hwidp]
    dsimp only
    rw [if_neg (not_le.mpr hpart)]
  · rw [hshape]
    dsimp only
    rw [if_neg (not_le.mpr hpart)]

/-- Claim C2: for every refund applied to a payment — through the admin
refund endpoint or through a `charge.refunded` webhook event — a refunded
amount covering the payment's amount makes the payment `refunded` and, when
the payment is the booking's only payment or the last non-failed one
(every other payment of the booking is `failed`), the booking becomes
`cancelled` (the admin endpoint in fact cancels unconditionally on a full
refund); a refunded amount strictly below the payment's amount makes the
payment `partially_refunded` and leaves the bookings table unchanged. -/
theorem refund_status_and_booking_cancellation (db : DB) (paymentId : Nat)
    (amount : Option ℤ) (gateway : Except String String)
    (chargeId : String) (amountRefunded : ℤ)
    (payment : Payment) (booking : Booking) (wp : Payment)
    (wbooking : Booking)
    (hp : db.payments.find? (fun p => decide (p.id = paymentId)) =
      some payment)
    (hb : db.bookings.find? (fun b => decide (b.id = payment.bookingId)) =
      some booking)
    (hstatus : payment.paymentStatus = PaymentStatus.completed ∨
               payment.paymentStatus = PaymentStatus.partially_refunded)
    (hpos : 0 < amount.getD payment.amount)
    (hle : amount.getD payment.amount ≤ payment.amount)
    (hgw : payment.paymentProvider ≠ PaymentProvider.stripe ∨
           (payment.paymentIntentId.isSome = true ∧
             ∃ r, gateway = Except.ok r))
    (hwp : db.payments.find?
      (fun p => decide (p.transactionId = some chargeId)) = some wp)
    (hwid : db.payments.find? (fun p => decide (p.id = wp.id)) = some wp)
    (hwb : db.bookings.find? (fun b => decide (b.id = wp.bookingId)) =
      some wbooking) :
    ((payment.amount ≤ amount.getD payment.amount →
      paymentStatusOf (processRefund db true paymentId amount gateway).db
          paymentId = some PaymentStatus.refunded ∧
      bookingStatusOf (processRefund db true paymentId amount gateway).db
          payment.bookingId = some BookingStatus.cancelled) ∧
    (amount.getD payment.amount < payment.amount →
      paymentStatusOf (processRefund db true paymentId amount gateway).db
          paymentId = some PaymentStatus.partially_refunded ∧
      (processRefund db true paymentId amount gateway).db.bookings =
        db.bookings)) ∧
    ((wp.amount ≤ amountRefunded →
      paymentStatusOf (handleRefund db chargeId amountRefunded) wp.id =
        some PaymentStatus.refunded ∧
      ((∀ q ∈ db.payments, q.bookingId = wp.bookingId → q.id ≠ wp.id →
          q.paymentStatus = PaymentStatus.failed) →
        bookingStatusOf (handleRefund db chargeId amountRefunded)
          wp.bookingId = some BookingStatus.cancelled)) ∧
    (amountRefunded < wp.amount →
      paymentStatusOf (handleRefund db chargeId amountRefunded) wp.id =
        some PaymentStatus.partially_refunded ∧
      (handleRefund db chargeId amountRefunded).bookings = db.bookings)) :=
  ⟨processRefund_refund_outcomes db paymentId amount gateway payment booking
      hp hb hstatus hpos hle hgw,
    handleRefund_refund_outcomes db chargeId amountRefunded wp wbooking
      hwp hwid hwb⟩

/-- Witness for C2 at a concrete state: a full admin refund of the
completed 300 payment marks it `refunded` and cancels the booking, and a
`charge.refunded` webhook event of 300 for its charge does the same. -/
theorem refund_status_and_booking_cancellation_witness :
    (paymentStatusOf
        (processRefund completedPaymentDb true 1 none (Except.ok "re")).db 1 =
        some PaymentStatus.refunded ∧
      bookingStatusOf
        (processRefund completedPaymentDb true 1 none (Except.ok "re")).db
        completedPayment300.bookingId = some BookingStatus.cancelled) ∧
    (paymentStatusOf (handleRefund completedPaymentDb "ch1" 300)
        completedPayment300.id = some PaymentStatus.refunded ∧
      bookingStatusOf (handleRefund completedPaymentDb "ch1" 300)
        completedPayment300.bookingId = some BookingStatus.cancelled) :=
  have h := refund_status_and_booking_cancellation completedPaymentDb 1 none
    (Except.ok "re") "ch1" 300 completedPayment300 confirmedBooking300
    completedPayment300 confirmedBooking300 rfl rfl (Or.inl rfl) (by decide)
    (by decide) (Or.inl (by decide)) rfl rfl rfl
  ⟨h.1.1 (by decide),
    (h.2.1 (by decide)).1,
    (h.2.1 (by decide)).2 (by decide)⟩

theorem totalPrices_updateBooking (db : DB) (userId bookingId : Nat)
    (st : Option BookingStatus) :
    totalPrices (updateBooking db userId bookingId st).db = totalPrices db := by
  unfold updateBooking
  cases hfb : db.bookings.find? (fun b => decide (b.id = bookingId)) with
  | none => rfl
  | some booking =>
    dsimp only
    by_cases hown : booking.userId ≠ userId
    · rw [if_pos hown]
    · rw [if_neg hown]
      by_cases hcan : booking.status = BookingStatus.cancelled
      · rw [if_pos hcan]
      · rw [if_neg hcan]
        exact totalPrices_updateWhere db _ _ (fun b => rfl) (fun b => rfl)

theorem totalPrices_cancelBooking (db : DB) (userId bookingId : Nat) :
    totalPrices (cancelBooking db userId bookingId).db = totalPrices db := by
  unfold cancelBooking
  cases hfb : db.bookings.find? (fun b => decide (b.id = bookingId)) with
  | none => rfl
  | some booking =>
    dsimp only
    by_cases hown : booking.userId ≠ userId
    · rw [if_pos hown]
    · rw [if_neg hown]
      by_cases hcan : booking.status = BookingStatus.cancelled
      · rw [if_pos hcan]
      · rw [if_neg hcan]
        exact totalPrices_updateWhere db _ _ (fun b => rfl) (fun b => rfl)

theorem totalPrices_createPayment (db : DB) (userId bookingId paymentId : Nat)
    (amount : Option ℤ) (provider : PaymentProvider)
    (gateway : Except String String) :
    totalPrices
      (createPayment db userId bookingId amount provider gateway paymentId).db =
      totalPrices db := by
  unfold createPayment
  cases hfb : db.bookings.find? (fun b => decide (b.id = bookingId)) with
  | none => rfl
  | some booking =>
    dsimp only
    by_cases hown : booking.userId ≠ userId
    · rw [if_pos hown]
    · rw [if_neg hown]
      by_cases hcan : booking.status = BookingStatus.cancelled
      · rw [if_pos hcan]
      · rw [if_neg hcan]
        by_cases hz : amount.getD booking.totalPrice ≤ 0
        · rw [if_pos hz]
        · rw [if_neg hz]
          by_cases hgt : booking.totalPrice < amount.getD booking.totalPrice
          · rw [if_pos hgt]
          · rw [if_neg hgt]
            cases hgw : (if provider = PaymentProvider.stripe
                then gateway.map some
                else Except.ok none : Except String (Option String)) with
            | error e => rfl
            | ok intentId => rfl

theorem totalPrices_updatePaymentStatus (db : DB) (isAdmin : Bool)
    (paymentId : Nat) (newStatus : PaymentStatus)
    (transactionId : Option String) :
    totalPrices (updatePaymentStatus db isAdmin paymentId newStatus
      transactionId).db = totalPrices db := by
  unfold updatePaymentStatus
  by_cases hadm : ¬isAdmin = true
  · rw [if_pos hadm]
  · rw [if_neg hadm]
    cases hfp : db.payments.find? (fun p => decide (p.id = paymentId)) with
    | none => rfl
    | some payment =>
      dsimp only
      cases hfb : db.bookings.find?
          (fun b => decide (b.id = payment.bookingId)) with
      | none => rfl
      | some booking =>
        dsimp only
        by_cases hc1 : newStatus = PaymentStatus.completed ∧
            booking.status = BookingStatus.pending
        · rw [if_pos hc1]
          exact totalPrices_updateWhere db _ _ (fun b => rfl) (fun b => rfl)
        · rw [if_neg hc1]
          by_cases hc2 : newStatus = PaymentStatus.refunded ∧
              booking.status ≠ BookingStatus.cancelled
          · rw [if_pos hc2]
            exact totalPrices_updateWhere db _ _ (fun b => rfl) (fun b => rfl)
          · rw [if_neg hc2]
            rfl

theorem totalPrices_processRefund (db : DB) (isAdmin : Bool)
    (paymentId : Nat) (amount : Option ℤ) (gateway : Except String String) :
    totalPrices (processRefund db isAdmin paymentId amount gateway).db =
      totalPrices db := by
  unfold processRefund
  by_cases hadm : ¬isAdmin = true
  · rw [if_pos hadm]
  · rw [if_neg hadm]
    cases hfp : db.payments.find? (fun p => decide (p.id = paymentId)) with
    | none => rfl
    | some payment =>
      dsimp only
      cases hfb : db.bookings.find?
          (fun b => decide (b.id = payment.bookingId)) with
      | none => rfl
      | some booking =>
        dsimp only
        by_cases hbad : payment.paymentStatus ≠ PaymentStatus.completed ∧
            payment.paymentStatus ≠ PaymentStatus.partially_refunded
        · rw [if_pos hbad]
        · rw [if_neg hbad]
          by_cases hz : amount.getD payment.amount ≤ 0
          · rw [if_pos hz]
          · rw [if_neg hz]
            by_cases hgt : payment.amount < amount.getD payment.amount
            · rw [if_pos hgt]
            · rw [if_neg hgt]
              cases hgw : (if payment.paymentProvider =
                    PaymentProvider.stripe ∧
                    payment.paymentIntentId.isSome then
                  match gateway with
                  | Except.error _ => Except.error 500
                  | Except.ok refundId => Except.ok refundId
                else if payment.paymentProvider ≠ PaymentProvider.stripe then
                  Except.ok "manual-refund"
                else Except.error 400 : Except Nat String) with
              | error e => rfl
              | ok refundId =>
                dsimp only
                by_cases hfull : payment.amount ≤ amount.getD payment.amount ∧
                    booking.status ≠ BookingStatus.cancelled
                · rw [if_pos hfull]
                  exact totalPrices_updateWhere db _ _
                    (fun b => rfl) (fun b => rfl)
                · rw [if_neg hfull]
                  rfl

theorem totalPrices_handlePaymentSuccess (db : DB) (pi txn : String) :
    totalPrices (handlePaymentSuccess db pi txn) = totalPrices db := by
  unfold handlePaymentSuccess
  cases hfp : db.payments.find?
      (fun p => decide (p.paymentIntentId = some pi)) with
  | none => rfl
  | some payment =>
    dsimp only
    show totalPrices { db with
      payments := successPayments db payment txn
      bookings := successBookings db payment txn } = totalPrices db
    unfold successBookings
    cases hfb : db.bookings.find?
        (fun b => decide (b.id = payment.bookingId)) with
    | none => rfl
    | some booking =>
      dsimp only
      by_cases hc : booking.totalPrice ≤ successTotalPaid db payment txn ∧
          booking.status = BookingStatus.pending
      · rw [if_pos hc]
        exact totalPrices_updateWhere db _ _ (fun b => rfl) (fun b => rfl)
      · rw [if_neg hc]
        rfl

theorem totalPrices_handlePaymentFailed (db : DB) (pi : String) :
    totalPrices (handlePaymentFailed db pi) = totalPrices db := by
  unfold handlePaymentFailed
  cases hfp : db.payments.find?
      (fun p => decide (p.paymentIntentId = some pi)) with
  | none => rfl
  | some payment => rfl

theorem totalPrices_handleRefund (db : DB) (chargeId : String)
    (amountRefunded : ℤ) :
    totalPrices (handleRefund db chargeId amountRefunded) = totalPrices db := by
  unfold handleRefund
  cases hfp : db.payments.find?
      (fun p => decide (p.transactionId = some chargeId)) with
  | none => rfl
  | some payment =>
    dsimp only
    by_cases hfull : payment.amount ≤ amountRefunded
    · rw [if_pos hfull]
      by_cases hall : (List.all
          (List.filter (fun p => decide (p.bookingId = payment.bookingId))
            (updateWhere db.payments (fun p => decide (p.id = payment.id))
              (fun p => { p with
                paymentStatus :=
                  if payment.amount ≤ amountRefunded
                  then PaymentStatus.refunded
                  else PaymentStatus.partially_refunded })))
          (fun p => decide (p.paymentStatus = PaymentStatus.refunded ∨
            p.paymentStatus = PaymentStatus.failed))) = true
      · rw [if_pos hall]
        exact totalPrices_updateWhere db _ _ (fun b => rfl) (fun b => rfl)
      · rw [if_neg hall]
        rfl
    · rw [if_neg hfull]
      rfl

theorem addActivity_totalPrice_delta (db : DB)
    (userId bookingId activityId newId : Nat) (sch : Option Nat)
    (booking : Booking) (activity : Activity)
    (hfb : db.bookings.find? (fun b => decide (b.id = bookingId)) =
      some booking)
    (hfa : db.activities.find? (fun a => decide (a.id = activityId)) =
      some activity)
    (hcode : (addActivityToBooking db userId bookingId activityId sch
      newId).code = 201) :
    totalPriceOf
      (addActivityToBooking db userId bookingId activityId sch newId).db
      bookingId = some (booking.totalPrice + activity.price) := by
  have hpb0 := List.find?_some hfb
  have hpb : decide (booking.id = bookingId) = true := hpb0
  unfold addActivityToBooking at hcode ⊢
  rw [hfb] at hcode ⊢
  dsimp only at hcode ⊢
  by_cases hown : booking.userId ≠ userId
  · rw [if_pos hown] at hcode
    simp at hcode
  · rw [if_neg hown] at hcode ⊢
    by_cases hcan : booking.status = BookingStatus.cancelled
    · rw [if_pos hcan] at hcode
      simp at hcode
    · rw [if_neg hcan] at hcode ⊢
      rw [hfa] at hcode ⊢
      dsimp only at hcode ⊢
      cases hdup : db.bookingActivities.find?
          (fun ba => decide (ba.bookingId = bookingId ∧
                             ba.activityId = activityId)) with
      | some x =>
        rw [hdup] at hcode
        simp at hcode
      | none =>
        dsimp only
        unfold totalPriceOf
        dsimp only
        rw [find?_updateWhere db.bookings
          (fun b => decide (b.id = bookingId))
          (fun b => decide (b.id = bookingId))
          (fun b => { b with
            totalPrice := booking.totalPrice + activity.price })
          (fun x => rfl), hfb]
        dsimp only [Option.map]
        rw [if_pos hpb]

/-- Claim C6 (amended): a booking's `totalPrice` is never recomputed from
current catalog prices by booking update, cancellation, payment creation,
admin payment-status update, refund, or any webhook handler — all of these
leave the (id, totalPrice) view of every booking unchanged — but adding an
activity to a booking does change it: a successful addActivityToBooking
sets the booking's `totalPrice` to its previous value plus the added
activity's current catalog price. -/
theorem totalPrice_frozen_except_addActivity (db : DB)
    (userId bookingId activityId newId paymentId : Nat) (sch : Option Nat)
    (st : Option BookingStatus) (amount ramount : Option ℤ)
    (provider : PaymentProvider) (gateway : Except String String)
    (isAdmin : Bool) (newStatus : PaymentStatus)
    (transactionId : Option String) (pi txn chargeId : String)
    (amountRefunded : ℤ) (booking : Booking) (activity : Activity)
    (hfb : db.bookings.find? (fun b => decide (b.id = bookingId)) =
      some booking)
    (hfa : db.activities.find? (fun a => decide (a.id = activityId)) =
      some activity) :
    totalPrices (updateBooking db userId bookingId st).db = totalPrices db ∧
    totalPrices (cancelBooking db userId bookingId).db = totalPrices db ∧
    totalPrices
      (createPayment db userId bookingId amount provider gateway paymentId).db =
      totalPrices db ∧
    totalPrices (updatePaymentStatus db isAdmin paymentId newStatus
      transactionId).db = totalPrices db ∧
    totalPrices (processRefund db isAdmin paymentId ramount gateway).db =
      totalPrices db ∧
    totalPrices (handlePaymentSuccess db pi txn) = totalPrices db ∧
    totalPrices (handlePaymentFailed db pi) = totalPrices db ∧
    totalPrices (handleRefund db chargeId amountRefunded) = totalPrices db ∧
    ((addActivityToBooking db userId bookingId activityId sch newId).code =
        201 →
      totalPriceOf
        (addActivityToBooking db userId bookingId activityId sch newId).db
        bookingId = some (booking.totalPrice + activity.price)) :=
  ⟨totalPrices_updateBooking db userId bookingId st,
    totalPrices_cancelBooking db userId bookingId,
    totalPrices_createPayment db userId bookingId paymentId amount provider
      gateway,
    totalPrices_updatePaymentStatus db isAdmin paymentId newStatus
      transactionId,
    totalPrices_processRefund db isAdmin paymentId ramount gateway,
    totalPrices_handlePaymentSuccess db pi txn,
    totalPrices_handlePaymentFailed db pi,
    totalPrices_handleRefund db chargeId amountRefunded,
    fun hcode => addActivity_totalPrice_delta db userId bookingId activityId
      newId sch booking activity hfb hfa hcode⟩

/-- Witness for C6 (amended) at a concrete state: the frame holds on the
100 booking, and adding the 50 activity yields totalPrice 100 + 50. -/
theorem totalPrice_frozen_except_addActivity_witness :
    totalPrices (updateBooking bookingAndCatalogDb 7 1
      (some BookingStatus.confirmed)).db = totalPrices bookingAndCatalogDb ∧
    totalPriceOf
      (addActivityToBooking bookingAndCatalogDb 7 1 10 none 500).db 1 =
      some ((100 : ℤ) + 50) :=
  have h := totalPrice_frozen_except_addActivity bookingAndCatalogDb 7 1 10
    500 77 none (some BookingStatus.confirmed) none none
    PaymentProvider.manual (Except.ok "x") true PaymentStatus.completed none
    "pi" "txn" "ch" 0
    { id := 1, userId := 7, packageId := none,
      status := BookingStatus.pending, totalPrice := 100 }
    { id := 10, name := "Safari", price := 50 } rfl rfl
  ⟨h.1, h.2.2.2.2.2.2.2.2 rfl⟩

/-- Claim C7 (amended): refund succeeds only for payments whose status is
`completed` or `partially_refunded` — any other status is rejected with a
client error (400) and no state change; it is likewise rejected, with
nothing committed, when the effective amount is ≤ 0 or greater than the
payment's ORIGINAL amount; and when no amount is supplied the refund
amount defaults to the payment's full original amount — previously
refunded amounts are not subtracted. -/
theorem refund_guards_and_default (db : DB) (paymentId : Nat)
    (amount : Option ℤ) (gateway : Except String String)
    (payment : Payment) (booking : Booking)
    (hp : db.payments.find? (fun p => decide (p.id = paymentId)) =
      some payment)
    (hb : db.bookings.find? (fun b => decide (b.id = payment.bookingId)) =
      some booking) :
    (payment.paymentStatus ≠ PaymentStatus.completed ∧
     payment.paymentStatus ≠ PaymentStatus.partially_refunded →
      processRefund db true paymentId amount gateway = ⟨400, none, db⟩) ∧
    (amount.getD payment.amount ≤ 0 →
      processRefund db true paymentId amount gateway = ⟨400, none, db⟩) ∧
    (payment.amount < amount.getD payment.amount →
      processRefund db true paymentId amount gateway = ⟨400, none, db⟩) ∧
    ((processRefund db true paymentId none gateway).code = 200 →
      (processRefund db true paymentId none gateway).refundAmount =
        some payment.amount) := by
  have hstart : ∀ a : Option ℤ, processRefund db true paymentId a gateway =
      (if payment.paymentStatus ≠ PaymentStatus.completed ∧
          payment.paymentStatus ≠ PaymentStatus.partially_refunded then
        ⟨400, none, db⟩
      else if a.getD payment.amount ≤ 0 then ⟨400, none, db⟩
      else if payment.amount < a.getD payment.amount then ⟨400, none, db⟩
      else
        match (if payment.paymentProvider = PaymentProvider.stripe ∧
                  payment.paymentIntentId.isSome then
                 match gateway with
                 | Except.error _ => Except.error 500
                 | Except.ok refundId => Except.ok refundId
               else if payment.paymentProvider ≠ PaymentProvider.stripe then
                 Except.ok "manual-refund"
               else Except.error 400 : Except Nat String) with
        | Except.error errCode => ⟨errCode, none, db⟩
        | Except.ok _ =>
          ⟨200, some (a.getD payment.amount),
            { db with
              payments := updateWhere db.payments
                (fun p => decide (p.id = paymentId))
                (fun p => { p with
                  paymentStatus :=
                    if payment.amount ≤ a.getD payment.amount
                    then PaymentStatus.refunded
                    else PaymentStatus.partially_refunded
                  refunds := p.refunds ++ [a.getD payment.amount] })
              bookings :=
                if payment.amount ≤ a.getD payment.amount ∧
                   booking.status ≠ BookingStatus.cancelled
                then updateWhere db.bookings
                  (fun b => decide (b.id = payment.bookingId))
                  (fun b => { b with status := BookingStatus.cancelled })
                else db.bookings }⟩) := by
    intro a
    unfold processRefund
    rw [if_neg (by decide : ¬¬(true : Bool) = true)]
    rw [hp]
    dsimp only
    rw [hb]
  refine ⟨fun hbad => ?_, fun hz => ?_, fun hgt => ?_, fun hcode => ?_⟩
  · rw [hstart amount, if_pos hbad]
  · rw [hstart amount]
    by_cases hbad : payment.paymentStatus ≠ PaymentStatus.completed ∧
        payment.paymentStatus ≠ PaymentStatus.partially_refunded
    · rw [if_pos hbad]
    · rw [if_neg hbad, if_pos hz]
  · rw [hstart amount]
    by_cases hbad : payment.paymentStatus ≠ PaymentStatus.completed ∧
        payment.paymentStatus ≠ PaymentStatus.partially_refunded
    · rw [if_pos hbad]
    · rw [if_neg hbad]
      by_cases hz : amount.getD payment.amount ≤ 0
      · rw [if_pos hz]
      · rw [if_neg hz, if_pos hgt]
  · rw [hstart none] at hcode ⊢
    by_cases hbad : payment.paymentStatus ≠ PaymentStatus.completed ∧
        payment.paymentStatus ≠ PaymentStatus.partially_refunded
    · rw [if_pos hbad] at hcode
      simp at hcode
    · rw [if_neg hbad] at hcode ⊢
      by_cases hz : (none : Option ℤ).getD payment.amount ≤ 0
      · rw [if_pos hz] at hcode
        simp at hcode
      · rw [if_neg hz] at hcode ⊢
        by_cases hgt : payment.amount < (none : Option ℤ).getD payment.amount
        · rw [if_pos hgt] at hcode
          simp at hcode
        · rw [if_neg hgt] at hcode ⊢
          by_cases hsi : payment.paymentProvider = PaymentProvider.stripe ∧
              payment.paymentIntentId.isSome = true
          · rw [if_pos hsi] at hcode ⊢
            cases hgw : gateway with
            | error e =>
              rw [hgw] at hcode
              simp at hcode
            | ok r => rfl
          · rw [if_neg hsi] at hcode ⊢
            by_cases hns : payment.paymentProvider ≠ PaymentProvider.stripe
            · rw [if_pos hns]
              rfl
            · rw [if_neg hns] at hcode
              simp at hcode

/-- Witness for C7 (amended) at a concrete state: on the 300 payment with
150 already refunded, an over-amount request of 600 is rejected with 400
and no state change, and an amount-less refund that returns 200 uses the
full original amount 300. -/
theorem refund_guards_and_default_witness :
    processRefund partialRefundDb true 1 (some 600) (Except.ok "x") =
      ⟨400, none, partialRefundDb⟩ ∧
    ((processRefund partialRefundDb true 1 none (Except.ok "x")).code = 200 →
      (processRefund partialRefundDb true 1 none (Except.ok "x")).refundAmount =
        some partiallyRefundedPayment300.amount) :=
  have h := refund_guards_and_default partialRefundDb 1 (some 600)
    (Except.ok "x") partiallyRefundedPayment300 confirmedBooking300 rfl rfl
  ⟨h.2.2.1 (by decide), h.2.2.2⟩

/-- Claim C8: when the Stripe gateway call fails, nothing is committed:
a createPayment for the stripe provider whose intent creation fails leaves
the database unchanged and does not return 201 (it returns the gateway
error 500 when all local validations passed), and a refund of a
stripe-provider payment whose gateway refund fails leaves the database
unchanged and does not return 200 — no orphaned pending payments and no
partial writes. -/
theorem gateway_failure_no_commit (db : DB) (userId bookingId paymentId : Nat)
    (amount ramount : Option ℤ) (e : String)
    (payment : Payment)
    (hp : db.payments.find? (fun p => decide (p.id = paymentId)) =
      some payment)
    (hstripe : payment.paymentProvider = PaymentProvider.stripe) :
    ((createPayment db userId bookingId amount PaymentProvider.stripe
        (Except.error e) paymentId).db = db ∧
      (createPayment db userId bookingId amount PaymentProvider.stripe
        (Except.error e) paymentId).code ≠ 201) ∧
    ((processRefund db true paymentId ramount (Except.error e)).db = db ∧
      (processRefund db true paymentId ramount (Except.error e)).code ≠
        200) := by
  constructor
  · unfold createPayment
    cases hfb : db.bookings.find? (fun b => decide (b.id = bookingId)) with
    | none => exact ⟨rfl, by simp [Except.map]⟩
    | some booking =>
      dsimp only
      by_cases hown : booking.userId ≠ userId
      · rw [if_pos hown]
        exact ⟨rfl, by simp [Except.map]⟩
      · rw [if_neg hown]
        by_cases hcan : booking.status = BookingStatus.cancelled
        · rw [if_pos hcan]
          exact ⟨rfl, by simp [Except.map]⟩
        · rw [if_neg hcan]
          by_cases hz : amount.getD booking.totalPrice ≤ 0
          · rw [if_pos hz]
            exact ⟨rfl, by simp [Except.map]⟩
          · rw [if_neg hz]
            by_cases hgt : booking.totalPrice < amount.getD booking.totalPrice
            · rw [if_pos hgt]
              exact ⟨rfl, by simp [Except.map]⟩
            · rw [if_neg hgt]
              rw [if_pos rfl]
              exact ⟨rfl, by simp [Except.map]⟩
  · unfold processRefund
    rw [if_neg (by decide : ¬¬(true : Bool) = true)]
    rw [hp]
    dsimp only
    cases hfb : db.bookings.find?
        (fun b => decide (b.id = payment.bookingId)) with
    | none => exact ⟨rfl, by simp [Except.map]⟩
    | some booking =>
      dsimp only
      by_cases hbad : payment.paymentStatus ≠ PaymentStatus.completed ∧
          payment.paymentStatus ≠ PaymentStatus.partially_refunded
      · rw [if_pos hbad]
        exact ⟨rfl, by simp [Except.map]⟩
      · rw [if_neg hbad]
        by_cases hz : ramount.getD payment.amount ≤ 0
        · rw [if_pos hz]
          exact ⟨rfl, by simp [Except.map]⟩
        · rw [if_neg hz]
          by_cases hgt : payment.amount < ramount.getD payment.amount
          · rw [if_pos hgt]
            exact ⟨rfl, by simp [Except.map]⟩
          · rw [if_neg hgt]
            by_cases hsome : payment.paymentIntentId.isSome = true
            · rw [if_pos ⟨hstripe, hsome⟩]
              exact ⟨rfl, by simp [Except.map]⟩
            · rw [if_neg (fun hc => hsome hc.2),
                if_neg (fun hc => hc hstripe)]
              exact ⟨rfl, by simp [Except.map]⟩

/-- Witness for C8 at a concrete state: a failing gateway during
createPayment against the fresh booking, and during a refund of the
completed stripe payment, both leave the state unchanged and do not
return the success code. -/
theorem gateway_failure_no_commit_witness :
    ((createPayment stripePaymentDb 7 1 (some 100) PaymentProvider.stripe
        (Except.error "boom") 102).db = stripePaymentDb ∧
      (createPayment stripePaymentDb 7 1 (some 100) PaymentProvider.stripe
        (Except.error "boom") 102).code ≠ 201) ∧
    ((processRefund stripePaymentDb true 1 none (Except.error "boom")).db =
        stripePaymentDb ∧
      (processRefund stripePaymentDb true 1 none
        (Except.error "boom")).code ≠ 200) :=
  gateway_failure_no_commit stripePaymentDb 7 1 1 (some 100) none "boom"
    stripePayment300 rfl rfl

theorem find?_booking_updateWhere (l : List Booking) (bookingId tid : Nat)
    (f : Booking → Booking) (hid : ∀ b, (f b).id = b.id) (booking : Booking)
    (hfind : l.find? (fun b => decide (b.id = bookingId)) = some booking) :
    (updateWhere l (fun b => decide (b.id = tid)) f).find?
      (fun b => decide (b.id = bookingId)) =
      some (if decide (booking.id = tid) = true
            then f booking else booking) := by
  rw [find?_updateWhere l (fun b => decide (b.id = tid))
    (fun b => decide (b.id = bookingId)) f
    (fun x => by
      show decide ((f x).id = bookingId) = decide (x.id = bookingId)
      rw [hid]), hfind]
  rfl

/-- Claim C9 (amended): `cancelled` is absorbing.  Once a booking is
cancelled: updateBooking, cancelBooking, addActivityToBooking and
createPayment against it are rejected with the state unchanged, and every
payment-driven operation (admin status update, refund, and all webhook
handlers) leaves the booking's status `cancelled`.  (The `completed`
status, however, is NOT reachable only from `confirmed`: updateBooking
accepts any status on any non-cancelled booking.) -/
theorem cancelled_booking_absorbing (db : DB)
    (userId bookingId activityId newId paymentId : Nat) (sch : Option Nat)
    (st : Option BookingStatus) (amount ramount : Option ℤ)
    (provider : PaymentProvider) (gateway : Except String String)
    (isAdmin : Bool) (newStatus : PaymentStatus)
    (transactionId : Option String) (pi txn chargeId : String)
    (amountRefunded : ℤ) (booking : Booking)
    (hfind : db.bookings.find? (fun b => decide (b.id = bookingId)) =
      some booking)
    (hcan : booking.status = BookingStatus.cancelled) :
    ((updateBooking db userId bookingId st).db = db ∧
      (updateBooking db userId bookingId st).code ≠ 200) ∧
    ((cancelBooking db userId bookingId).db = db ∧
      (cancelBooking db userId bookingId).code ≠ 200) ∧
    ((addActivityToBooking db userId bookingId activityId sch newId).db =
        db ∧
      (addActivityToBooking db userId bookingId activityId sch newId).code ≠
        201) ∧
    ((createPayment db userId bookingId amount provider gateway
        paymentId).db = db ∧
      (createPayment db userId bookingId amount provider gateway
        paymentId).code ≠ 201) ∧
    bookingStatusOf (updatePaymentStatus db isAdmin paymentId newStatus
      transactionId).db bookingId = some BookingStatus.cancelled ∧
    bookingStatusOf (processRefund db isAdmin paymentId ramount gateway).db
      bookingId = some BookingStatus.cancelled ∧
    bookingStatusOf (handlePaymentSuccess db pi txn) bookingId =
      some BookingStatus.cancelled ∧
    bookingStatusOf (handlePaymentFailed db pi) bookingId =
      some BookingStatus.cancelled ∧
    bookingStatusOf (handleRefund db chargeId amountRefunded) bookingId =
      some BookingStatus.cancelled := by
  have hfindp0 := List.find?_some hfind
  have hfindp : decide (booking.id = bookingId) = true := hfindp0
  have hbase : bookingStatusOf db bookingId = some BookingStatus.cancelled := by
    unfold bookingStatusOf
    rw [hfind]
    dsimp only [Option.map]
    rw [hcan]
  refine ⟨?_, ?_, ?_, ?_, ?_, ?_, ?_, ?_, ?_⟩
  · unfold updateBooking
    rw [hfind]
    dsimp only
    by_cases hown : booking.userId ≠ userId
    · rw [if_pos hown]
      exact ⟨rfl, by simp⟩
    · rw [if_neg hown, if_pos hcan]
      exact ⟨rfl, by simp⟩
  · unfold cancelBooking
    rw [hfind]
    dsimp only
    by_cases hown : booking.userId ≠ userId
    · rw [if_pos hown]
      exact ⟨rfl, by simp⟩
    · rw [if_neg hown, if_pos hcan]
      exact ⟨rfl, by simp⟩
  · unfold addActivityToBooking
    rw [hfind]
    dsimp only
    by_cases hown : booking.userId ≠ userId
    · rw [if_pos hown]
      exact ⟨rfl, by simp⟩
    · rw [if_neg hown, if_pos hcan]
      exact ⟨rfl, by simp⟩
  · unfold createPayment
    rw [hfind]
    dsimp only
    by_cases hown : booking.userId ≠ userId
    · rw [if_pos hown]
      exact ⟨rfl, by simp⟩
    · rw [if_neg hown, if_pos hcan]
      exact ⟨rfl, by simp⟩
  · unfold updatePaymentStatus
    by_cases hadm : ¬isAdmin = true
    · rw [if_pos hadm]
      exact hbase
    · rw [if_neg hadm]
      cases hfp : db.payments.find? (fun p => decide (p.id = paymentId)) with
      | none => exact hbase
      | some payment =>
        dsimp only
        cases hfbk : db.bookings.find?
            (fun b => decide (b.id = payment.bookingId)) with
        | none => exact hbase
        | some booking2 =>
          dsimp only
          by_cases hc1 : newStatus = PaymentStatus.completed ∧
              booking2.status = BookingStatus.pending
          · rw [if_pos hc1]
            unfold bookingStatusOf
            dsimp only
            rw [find?_booking_updateWhere db.bookings bookingId
              payment.bookingId
              (fun b => { b with status := BookingStatus.confirmed })
              (fun b => rfl) booking hfind]
            by_cases hbt : decide (booking.id = payment.bookingId) = true
            · exfalso
              have h1 : booking.id = payment.bookingId :=
                of_decide_eq_true hbt
              have h2 : booking.id = bookingId := of_decide_eq_true hfindp
              have h3 : payment.bookingId = bookingId := h1.symm.trans h2
              rw [h3, hfind] at hfbk
              injection hfbk with h4
              have h5 : booking.status = BookingStatus.pending :=
                h4 ▸ hc1.2
              rw [hcan] at h5
              exact absurd h5 (by decide)
            · rw [if_neg hbt]
              dsimp only [Option.map]
              rw [hcan]
          · rw [if_neg hc1]
            by_cases hc2 : newStatus = PaymentStatus.refunded ∧
                booking2.status ≠ BookingStatus.cancelled
            · rw [if_pos hc2]
              unfold bookingStatusOf
              dsimp only
              rw [find?_booking_updateWhere db.bookings bookingId
                payment.bookingId
                (fun b => { b with status := BookingStatus.cancelled })
                (fun b => rfl) booking hfind]
              by_cases hbt : decide (booking.id = payment.bookingId) = true
              · rw [if_pos hbt]
                rfl
              · rw [if_neg hbt]
                dsimp only [Option.map]
                rw [hcan]
            · rw [if_neg hc2]
              exact hbase
  · unfold processRefund
    by_cases hadm : ¬isAdmin = true
    · rw [if_pos hadm]
      exact hbase
    · rw [if_neg hadm]
      cases hfp : db.payments.find? (fun p => decide (p.id = paymentId)) with
      | none => exact hbase
      | some payment =>
        dsimp only
        cases hfbk : db.bookings.find?
            (fun b => decide (b.id = payment.bookingId)) with
        | none => exact hbase
        | some booking2 =>
          dsimp only
          by_cases hbad : payment.paymentStatus ≠ PaymentStatus.completed ∧
              payment.paymentStatus ≠ PaymentStatus.partially_refunded
          · rw [if_pos hbad]
            exact hbase
          · rw [if_neg hbad]
            by_cases hz : ramount.getD payment.amount ≤ 0
            · rw [if_pos hz]
              exact hbase
            · rw [if_neg hz]
              by_cases hgt : payment.amount < ramount.getD payment.amount
              · rw [if_pos hgt]
                exact hbase
              · rw [if_neg hgt]
                cases hgw : (if payment.paymentProvider =
                      PaymentProvider.stripe ∧
                      payment.paymentIntentId.isSome then
                    match gateway with
                    | Except.error _ => Except.error 500
                    | Except.ok refundId => Except.ok refundId
                  else if payment.paymentProvider ≠
                      PaymentProvider.stripe then
                    Except.ok "manual-refund"
                  else Except.error 400 : Except Nat String) with
                | error e => exact hbase
                | ok refundId =>
                  dsimp only
                  by_cases hfull : payment.amount ≤
                      ramount.getD payment.amount ∧
                      booking2.status ≠ BookingStatus.cancelled
                  · rw [if_pos hfull]
                    unfold bookingStatusOf
                    dsimp only
                    rw [find?_booking_updateWhere db.bookings bookingId
                      payment.bookingId
                      (fun b => { b with status := BookingStatus.cancelled })
                      (fun b => rfl) booking hfind]
                    by_cases hbt : decide (booking.id = payment.bookingId) =
                        true
                    · rw [if_pos hbt]
                      rfl
                    · rw [if_neg hbt]
                      dsimp only [Option.map]
                      rw [hcan]
                  · rw [if_neg hfull]
                    exact hbase
  · unfold handlePaymentSuccess
    cases hfp : db.payments.find?
        (fun p => decide (p.paymentIntentId = some pi)) with
    | none => exact hbase
    | some payment =>
      dsimp only
      show bookingStatusOf { db with
        payments := successPayments db payment txn
        bookings := successBookings db payment txn } bookingId =
        some BookingStatus.cancelled
      unfold successBookings
      cases hfbk : db.bookings.find?
          (fun b => decide (b.id = payment.bookingId)) with
      | none => exact hbase
      | some booking2 =>
        dsimp only
        by_cases hc : booking2.totalPrice ≤ successTotalPaid db payment txn ∧
            booking2.status = BookingStatus.pending
        · rw [if_pos hc]
          unfold bookingStatusOf
          dsimp only
          rw [find?_booking_updateWhere db.bookings bookingId
            payment.bookingId
            (fun b => { b with status := BookingStatus.confirmed })
            (fun b => rfl) booking hfind]
          by_cases hbt : decide (booking.id = payment.bookingId) = true
          · exfalso
            have h1 : booking.id = payment.bookingId :=
              of_decide_eq_true hbt
            have h2 : booking.id = bookingId := of_decide_eq_true hfindp
            have h3 : payment.bookingId = bookingId := h1.symm.trans h2
            rw [h3, hfind] at hfbk
            injection hfbk with h4
            have h5 : booking.status = BookingStatus.pending := h4 ▸ hc.2
            rw [hcan] at h5
            exact absurd h5 (by decide)
          · rw [if_neg hbt]
            dsimp only [Option.map]
            rw [hcan]
        · rw [if_neg hc]
          exact hbase
  · unfold handlePaymentFailed
    cases hfp : db.payments.find?
        (fun p => decide (p.paymentIntentId = some pi)) with
    | none => exact hbase
    | some payment => exact hbase
  · unfold handleRefund
    cases hfp : db.payments.find?
        (fun p => decide (p.transactionId = some chargeId)) with
    | none => exact hbase
    | some payment =>
      dsimp only
      by_cases hfull : payment.amount ≤ amountRefunded
      · rw [if_pos hfull]
        by_cases hall : (List.all
            (List.filter (fun p => decide (p.bookingId = payment.bookingId))
              (updateWhere db.payments (fun p => decide (p.id = payment.id))
                (fun p => { p with
                  paymentStatus :=
                    if payment.amount ≤ amountRefunded
                    then PaymentStatus.refunded
                    else PaymentStatus.partially_refunded })))
            (fun p => decide (p.paymentStatus = PaymentStatus.refunded ∨
              p.paymentStatus = PaymentStatus.failed))) = true
        · rw [if_pos hall]
          unfold bookingStatusOf
          dsimp only
          rw [find?_booking_updateWhere db.bookings bookingId
            payment.bookingId
            (fun b => { b with status := BookingStatus.cancelled })
            (fun b => rfl) booking hfind]
          by_cases hbt : decide (booking.id = payment.bookingId) = true
          · rw [if_pos hbt]
            rfl
          · rw [if_neg hbt]
            dsimp only [Option.map]
            rw [hcan]
        · rw [if_neg hall]
          exact hbase
      · rw [if_neg hfull]
        exact hbase

/-- Witness for C9 (amended) at a concrete state: on the cancelled
booking, an update is rejected with the state unchanged and a
`payment_intent.succeeded` webhook leaves it cancelled. -/
theorem cancelled_booking_absorbing_witness :
    ((updateBooking cancelledBookingDb 7 1 (some BookingStatus.confirmed)).db =
        cancelledBookingDb ∧
      (updateBooking cancelledBookingDb 7 1
        (some BookingStatus.confirmed)).code ≠ 200) ∧
    bookingStatusOf (handlePaymentSuccess cancelledBookingDb "pi1" "tx")
      1 = some BookingStatus.cancelled :=
  have h := cancelled_booking_absorbing cancelledBookingDb 7 1 10 500 77 none
    (some BookingStatus.confirmed) none none PaymentProvider.manual
    (Except.ok "x") true PaymentStatus.completed none "pi1" "tx" "ch1" 0
    cancelledBooking300 rfl rfl
  ⟨h.1, h.2.2.2.2.2.2.1⟩

end TravelApi
